import Mathlib

/-!
Verification of the rdio-scanner live-feed client session logic
(src/client/src/app/components/rdio-scanner/rdio-scanner.service.ts) and of
the store bootstrap layer (src/server/database.go), as a shallow embedding.

Conventions of the embedding:
* JavaScript/JSON dynamic values are modelled by the inductive `Json`.
* The Angular service's mutable fields become the record `ClientState`;
  every method of the service that the verified claims touch becomes a
  Lean function `ClientState → ... → ClientState`.
* Side effects are logged inside the state: `sent` collects the frames
  written to the websocket, `events` counts `event.emit` calls, `downloads`
  collects calls handed to the file-download path, `playStarted` counts
  starts of the asynchronous audio fetch/decode pipeline, `saved` counts
  localStorage writes.  Asynchronous callbacks (rxjs timers, decodeAudioData
  callbacks, fetch continuations) run after the synchronous method returns
  and are not part of these step functions.
* Go's `database/sql` store becomes the record `DbState`; executed SQL
  statements are logged as pairs (query text, bound arguments).  Failures
  of the driver are supplied by oracles (`fails`, `beginFails`,
  `commitFails`, `openFails`), letting the error paths of the Go code be
  exercised.
-/

/-- JSON values (and, by truthiness, the JavaScript values the service
passes around).  `num` carries an `Int`: the protocol's numbers are ids,
counts, offsets and the sort direction ±1. -/
inductive Json where
  | null : Json
  | bool (b : Bool) : Json
  | num (n : Int) : Json
  | str (s : String) : Json
  | arr (elems : List Json) : Json
  | obj (fields : List (String × Json)) : Json

/-- JavaScript truthiness of a JSON value (`if (payload)` in the source).
Objects and arrays are always truthy; null, false, 0 and the empty string
are falsy. -/
def Json.truthy : Json → Bool
  | .null => false
  | .bool b => b
  | .num n => n != 0
  | .str s => s != ""
  | .arr _ => true
  | .obj _ => true

/-- Field lookup in a JSON object-as-association-list (JS property read). -/
def jGet (fields : List (String × Json)) (key : String) : Option Json :=
  fields.lookup key

/-- Read an optional JSON value as a string, as TS `typeof v === 'string'`. -/
def jStr? : Option Json → Option String
  | some (Json.str s) => some s
  | _ => none

/-- Read an optional JSON value as a natural number.  Protocol numbers
(ids, counts, limits, offsets) are non-negative; a negative number is
treated as absent. -/
def jNat? : Option Json → Option Nat
  | some (Json.num n) => if 0 ≤ n then some n.toNat else none
  | _ => none

/-- Read an optional JSON value as an integer (used for the sort ±1). -/
def jInt? : Option Json → Option Int
  | some (Json.num n) => some n
  | _ => none

/-- Read an optional JSON value as a boolean, as TS `typeof v === 'boolean'`. -/
def jBool? : Option Json → Option Bool
  | some (Json.bool b) => some b
  | _ => none

/-- TS `v === 's'` for a possibly-absent dynamic value against a string
literal (used for the echoed CAL flag). -/
def jsonIsStr (j : Option Json) (s : String) : Bool :=
  match j with
  | some (Json.str t) => t == s
  | _ => false

/-- Modelled from the spec: a talkgroup of the public config
(`Talkgroup {id, label, name, group, tag, frequency, led, order}`, §3);
the client interface file rdio-scanner.ts is not part of the sources, and
only the fields the service reads are kept. -/
structure RdioScannerTalkgroup where
  id : Nat
  label : String
  name : String
  group : String
  tag : String
  frequency : Option Nat
deriving Repr, DecidableEq

/-- Modelled from the spec: a system of the public config
(`System {id, label, ...}` owning talkgroups, §3); only the fields the
service reads are kept. -/
structure RdioScannerSystem where
  id : Nat
  label : String
  talkgroups : List RdioScannerTalkgroup
deriving Repr, DecidableEq

/-- Modelled from the spec: a call record (§3).  `audio` is the byte list of
the audio payload (the TS code reads `call.audio.data`), `audioUrl` the
offsite reference; `systemData`/`talkgroupData` are the presentation fields
`transformCall` fills in. -/
structure RdioScannerCall where
  id : Option Nat
  system : Nat
  talkgroup : Nat
  patches : List Nat
  frequency : Option Nat
  audio : Option (List Nat)
  audioName : Option String
  audioType : Option String
  audioUrl : Option String
  systemData : Option RdioScannerSystem
  talkgroupData : Option RdioScannerTalkgroup
deriving Repr, DecidableEq

/-- One entry of the livefeed map (TS `RdioScannerLivefeed`): the active
flag, the avoid-timer minutes, and whether a live re-activation timer is
subscribed (the rxjs Subscription itself is not modelled; its callback is
asynchronous). -/
structure RdioScannerLivefeed where
  active : Bool
  minutes : Option Nat
  hasTimer : Bool
deriving Repr, DecidableEq

/-- The session-local livefeed map `{systemId → {talkgroupId → entry}}`,
as an association list mirroring a JS object's keyed entries. -/
abbrev LivefeedMap := List (Nat × List (Nat × RdioScannerLivefeed))

/-- Lookup of a talkgroup entry: `livefeedMap[sys]?.[tg]`. -/
def lfmLookup (m : LivefeedMap) (sys tg : Nat) : Option RdioScannerLivefeed :=
  (m.lookup sys).bind (fun tgMap => tgMap.lookup tg)

/-- `lfm` of `cleanQueue`: `this.livefeedMap && this.livefeedMap[sys] &&
this.livefeedMap[sys][tg]?.active` — false when the system key or the
talkgroup entry is missing. -/
def lfmActive (m : LivefeedMap) (sys tg : Nat) : Bool :=
  match lfmLookup m sys tg with
  | some entry => entry.active
  | none => false

/-- In-place update of one livefeed entry (`this.livefeedMap[sys][tg].x = v`).
The JS code would throw a TypeError when the entry is absent; callers'
well-formedness hypotheses keep the verified statements inside the
non-throwing domain, where this total model agrees with the source. -/
def lfmUpdate (m : LivefeedMap) (sys tg : Nat)
    (f : RdioScannerLivefeed → RdioScannerLivefeed) : LivefeedMap :=
  m.map (fun p =>
    if p.1 = sys then
      (p.1, p.2.map (fun q => if q.1 = tg then (q.1, f q.2) else q))
    else p)

/-- Update every talkgroup entry of one system
(`Object.keys(this.livefeedMap[sys]).forEach(...)`). -/
def lfmUpdateSystem (m : LivefeedMap) (sys : Nat)
    (f : RdioScannerLivefeed → RdioScannerLivefeed) : LivefeedMap :=
  m.map (fun p => if p.1 = sys then (p.1, p.2.map (fun q => (q.1, f q.2))) else p)

/-- A category line of the client UI (group or tag label with its
three-valued status). -/
inductive RdioScannerCategoryStatus where
  | off
  | on
  | mixed
deriving Repr, DecidableEq

/-- TS `RdioScannerCategoryType`: a category is a group label or a tag label. -/
inductive RdioScannerCategoryType where
  | group
  | tag
deriving Repr, DecidableEq

/-- TS `RdioScannerCategory` (`mixed` stands for the TS `Partial` status). -/
structure RdioScannerCategory where
  label : String
  status : RdioScannerCategoryStatus
  type : RdioScannerCategoryType
deriving Repr, DecidableEq

/-- The group/tag maps of the public config: label → systemId → talkgroup
ids (TS `config.groups` / `config.tags`). -/
abbrev CategoryMap := List (String × List (Nat × List Nat))

/-- Search options as the playback walker uses them (`sort`, `limit`,
`offset`; the other search fields of the protocol are not read by the
verified code paths). -/
structure RdioScannerSearchOptions where
  sort : Int
  limit : Nat
  offset : Nat
deriving Repr, DecidableEq

/-- TS `RdioScannerPlaybackList`: one page of search results. -/
structure RdioScannerPlaybackList where
  count : Nat
  options : RdioScannerSearchOptions
  results : List RdioScannerCall
deriving Repr, DecidableEq

/-- The client configuration object (service field `config`).  `branding`
empty models the initially-absent branding string; `dimmerDelay = none`
models the initial TS value `false`. -/
structure RdioScannerConfig where
  branding : String
  afs : Option String
  dimmerDelay : Option Nat
  groups : CategoryMap
  keypadBeeps : Bool
  playbackGoesLive : Bool
  showListenersCount : Bool
  systems : List RdioScannerSystem
  tags : CategoryMap
  tagsToggle : Bool
  time12hFormat : Bool
deriving Repr, DecidableEq

/-- TS `RdioScannerLivefeedMode`. -/
inductive RdioScannerLivefeedMode where
  | offline
  | online
  | playback
deriving Repr, DecidableEq

/-- The mutable state of `RdioScannerService` together with the logs of its
observable effects (see the header comment). -/
structure ClientState where
  config : RdioScannerConfig
  livefeedMap : LivefeedMap
  livefeedMapPriorToHoldSystem : Option LivefeedMap
  livefeedMapPriorToHoldTalkgroup : Option LivefeedMap
  livefeedMode : RdioScannerLivefeedMode
  livefeedPaused : Bool
  call : Option RdioScannerCall
  callPrevious : Option RdioScannerCall
  callQueue : List RdioScannerCall
  categories : List RdioScannerCategory
  playbackList : Option RdioScannerPlaybackList
  playbackPending : Option Nat
  playbackRefreshing : Bool
  audioSource : Bool
  skipDelay : Bool
  websocketReady : Bool
  sent : List Json
  events : Nat
  downloads : List RdioScannerCall
  playStarted : Nat
  saved : Nat

/-- The initial field values of the service (source lines 80–112): empty
queue and map, offline mode, the default config object. -/
def initialConfig : RdioScannerConfig :=
  { branding := ""
    afs := none
    dimmerDelay := none
    groups := []
    keypadBeeps := false
    playbackGoesLive := false
    showListenersCount := false
    systems := []
    tags := []
    tagsToggle := false
    time12hFormat := false }

/-- A fresh `ClientState` as the service constructs it (before the
websocket opens). -/
def initialState : ClientState :=
  { config := initialConfig
    livefeedMap := []
    livefeedMapPriorToHoldSystem := none
    livefeedMapPriorToHoldTalkgroup := none
    livefeedMode := .offline
    livefeedPaused := false
    call := none
    callPrevious := none
    callQueue := []
    categories := []
    playbackList := none
    playbackPending := none
    playbackRefreshing := false
    audioSource := false
    skipDelay := false
    websocketReady := false
    sent := []
    events := 0
    downloads := []
    playStarted := 0
    saved := 0 }

/-- `sendtoWebsocket(command, payload?, flags?)`: when the socket is open
(readyState 1) build `[command]`, push the payload only when it is truthy
(so a `null` payload is dropped), push the flags when present, and send. -/
def sendtoWebsocket (st : ClientState) (command : String) (payload : Option Json)
    (flags : Option String) : ClientState :=
  if st.websocketReady then
    let m1 : List Json := [Json.str command]
    let m2 := match payload with
      | some p => if p.truthy then m1 ++ [p] else m1
      | none => m1
    let m3 := match flags with
      | some f => m2 ++ [Json.str f]
      | none => m2
    { st with sent := st.sent ++ [Json.arr m3] }
  else st

/-- `isAvoided(call)`: `!!this.livefeedMap[call.system] &&
this.livefeedMap[call.system][call.talkgroup]?.active !== true`. -/
def isAvoided (st : ClientState) (call : RdioScannerCall) : Bool :=
  match st.livefeedMap.lookup call.system with
  | none => false
  | some tgMap =>
    match tgMap.lookup call.talkgroup with
    | some entry => !entry.active
    | none => true

/-- `isAvoidedTimer(call)`: the remaining avoid-timer minutes of the call's
talkgroup entry, 0 when none. -/
def isAvoidedTimer (st : ClientState) (call : RdioScannerCall) : Nat :=
  match st.livefeedMap.lookup call.system with
  | none => 0
  | some tgMap =>
    match tgMap.lookup call.talkgroup with
    | some entry => (entry.minutes).getD 0
    | none => 0

/-- The subscription predicate of `cleanQueue`: the call's own talkgroup is
active, or some patched talkgroup of the call is active (the TS loop breaks
at the first active patch, which equals `List.any`). -/
def isActiveCall (m : LivefeedMap) (c : RdioScannerCall) : Bool :=
  lfmActive m c.system c.talkgroup || c.patches.any (fun tg => lfmActive m c.system tg)

/-- `stop(options?)`: tear down the audio source, move the current call to
`callPrevious`, and emit unless `emit: false` was passed. -/
def stop (st : ClientState) (emit : Bool) : ClientState :=
  let st := { st with audioSource := false }
  let st := match st.call with
    | some c => { st with callPrevious := some c, call := none }
    | none => st
  if emit then { st with events := st.events + 1 } else st

/-- `clearQueue()`: splice the whole pending queue away. -/
def clearQueue (st : ClientState) : ClientState :=
  { st with callQueue := [] }

/-- The livefeed map serialized for the wire, as `startLivefeed` builds it:
`{sys → {tg → active}}` with the numeric keys stringified. -/
def lfmToJson (m : LivefeedMap) : Json :=
  Json.obj (m.map (fun p =>
    (toString p.1, Json.obj (p.2.map (fun q => (toString q.1, Json.bool q.2.active))))))

/-- `startLivefeed()`: serialize the map, switch to online mode, emit the
mode, and send the `LFM` frame. -/
def startLivefeed (st : ClientState) : ClientState :=
  let payload := lfmToJson st.livefeedMap
  let st := { st with livefeedMode := .online }
  let st := { st with events := st.events + 1 }
  sendtoWebsocket st "LFM" (some payload) none

/-- A livefeed entry read with the inactive default.  `rebuildCategories`
reads `this.livefeedMap[sys][tg].active` behind a `this.livefeedMap[sys] &&`
guard; a present system with a missing talkgroup entry would throw in JS and
is read as inactive here (the service keeps the map complete via
`rebuildLivefeedMap`). -/
def lfmEntryD (m : LivefeedMap) (sys tg : Nat) : RdioScannerLivefeed :=
  (lfmLookup m sys tg).getD { active := false, minutes := none, hasTimer := false }

/-- The three-valued status of one category over the livefeed map
(`allOff ? Off : allOn ? On : Partial`). -/
def categoryStatus (m : LivefeedMap) (entry : List (Nat × List Nat)) :
    RdioScannerCategoryStatus :=
  let allOff := entry.all (fun p =>
    p.2.all (fun tg => (m.lookup p.1).isSome && !(lfmEntryD m p.1 tg).active))
  let allOn := entry.all (fun p =>
    p.2.all (fun tg => (m.lookup p.1).isSome && (lfmEntryD m p.1 tg).active))
  if allOff then .off else if allOn then .on else .mixed

/-- Stable insertion into a label-sorted category list.  The TS sorts with
`localeCompare`, whose locale-dependent order is modelled by the string
order of Lean; the verified claims never inspect the order. -/
def insertCategory (c : RdioScannerCategory) :
    List RdioScannerCategory → List RdioScannerCategory
  | [] => [c]
  | d :: rest =>
    if c.label ≤ d.label then c :: d :: rest else d :: insertCategory c rest

/-- Insertion sort of the category list by label. -/
def sortCategories : List RdioScannerCategory → List RdioScannerCategory
  | [] => []
  | c :: rest => insertCategory c (sortCategories rest)

/-- `rebuildCategories()`: one category per group label, plus one per tag
label when `tagsToggle` is on, sorted by label. -/
def rebuildCategories (st : ClientState) : ClientState :=
  let groupCats := st.config.groups.map (fun p =>
    { label := p.1, status := categoryStatus st.livefeedMap p.2,
      type := RdioScannerCategoryType.group })
  let cats :=
    if st.config.tagsToggle then
      groupCats ++ st.config.tags.map (fun p =>
        { label := p.1, status := categoryStatus st.livefeedMap p.2,
          type := RdioScannerCategoryType.tag })
    else groupCats
  { st with categories := sortCategories cats }

/-- `saveLivefeedMap()`: one localStorage write of the serialized active
flags (the stored payload itself is not tracked). -/
def saveLivefeedMap (st : ClientState) : ClientState :=
  { st with saved := st.saved + 1 }

/-- The shared tail of `holdSystem`/`holdTalkgroup`: rebuild the
categories, resubscribe when requested and online, and emit. -/
def holdTail (st : ClientState) (resubscribe : Bool) : ClientState :=
  let st := rebuildCategories st
  let st := if resubscribe && st.livefeedMode == RdioScannerLivefeedMode.online then startLivefeed st else st
  { st with events := st.events + 1 }

/-- The release branch of `holdSystem` (a prior map is stored): restore it
and run the common tail.  No queue pruning happens on release. -/
def holdSystemRelease (st : ClientState) (resubscribe : Bool) : ClientState :=
  match st.livefeedMapPriorToHoldSystem with
  | some m =>
    holdTail { st with livefeedMap := m, livefeedMapPriorToHoldSystem := none } resubscribe
  | none => st

/-- The release branch of `holdTalkgroup`. -/
def holdTalkgroupRelease (st : ClientState) (resubscribe : Bool) : ClientState :=
  match st.livefeedMapPriorToHoldTalkgroup with
  | some m =>
    holdTail { st with livefeedMap := m, livefeedMapPriorToHoldTalkgroup := none } resubscribe
  | none => st

/-- The search options serialized for the `LCL` request. -/
def searchOptionsToJson (o : RdioScannerSearchOptions) : Json :=
  Json.obj [("sort", Json.num o.sort), ("limit", Json.num (o.limit : Int)),
            ("offset", Json.num (o.offset : Int))]

/-- `searchCalls(options)`: send the `LCL` frame. -/
def searchCalls (st : ClientState) (o : RdioScannerSearchOptions) : ClientState :=
  sendtoWebsocket st "LCL" (some (searchOptionsToJson o)) none

/-- `stopPlaybackMode()`: back to offline, clear the queue, emit, stop. -/
def stopPlaybackMode (st : ClientState) : ClientState :=
  let st := { st with livefeedMode := .offline, playbackRefreshing := false }
  let st := clearQueue st
  let st := { st with events := st.events + 1 }
  stop st true

/-- `loadAndPlay(id)`: remember the pending playback id, stop the current
call, enter playback mode from offline (releasing any hold first — the TS
calls `holdSystem`/`holdTalkgroup`, which with a stored prior map take
their release branch; that branch is inlined here together with the
call-presence gate of the hold methods), and request the call with the
`p` flag. -/
def loadAndPlay (st : ClientState) (id : Nat) : ClientState :=
  if id = 0 then st
  else
    let st := { st with skipDelay := false }
    let st := { st with playbackPending := some id }
    let st := stop st true
    let st :=
      if st.livefeedMode = RdioScannerLivefeedMode.offline then
        let st := { st with livefeedMode := .playback }
        let st :=
          if st.livefeedMapPriorToHoldSystem.isSome then
            match st.call <|> st.callPrevious with
            | some _ => holdSystemRelease st false
            | none => st
          else st
        let st :=
          if st.livefeedMapPriorToHoldTalkgroup.isSome then
            match st.call <|> st.callPrevious with
            | some _ => holdTalkgroupRelease st false
            | none => st
          else st
        { st with events := st.events + 1 }
      else if st.livefeedMode = RdioScannerLivefeedMode.playback then { st with events := st.events + 1 }
      else st
    sendtoWebsocket st "CAL" (some (Json.str (toString id))) (some "p")

/-- `playbackNextCall()`: walk the playback page in the sorted direction,
loading the neighbouring call or fetching the neighbouring page.  On an
empty page the TS would throw reading `results[...].id`; here the id
defaults to 0, which `loadAndPlay` ignores. -/
def playbackNextCall (st : ClientState) : ClientState :=
  if st.call.isSome || st.livefeedMode ≠ RdioScannerLivefeedMode.playback || st.playbackPending.isSome then st
  else
    match st.playbackList with
    | none => st
    | some pl =>
      let index? := pl.results.findIdx? (fun c => c.id == st.callPrevious.bind (fun p => p.id))
      if pl.options.sort = -1 then
        match index? with
        | none => loadAndPlay st ((pl.results.getLast?.bind (fun c => c.id)).getD 0)
        | some 0 =>
          if pl.options.offset < pl.options.limit then
            if st.playbackRefreshing then
              let st := stopPlaybackMode st
              if st.config.playbackGoesLive then startLivefeed st else st
            else
              searchCalls { st with playbackRefreshing := true } pl.options
          else
            searchCalls st { pl.options with offset := pl.options.offset - pl.options.limit }
        | some (i + 1) =>
          loadAndPlay st ((pl.results[i]?.bind (fun c => c.id)).getD 0)
      else
        match index? with
        | none => loadAndPlay st ((pl.results.head?.bind (fun c => c.id)).getD 0)
        | some i =>
          if i = pl.results.length - 1 then
            if (pl.options.offset : Int) < (pl.count : Int) - (pl.options.limit : Int) then
              searchCalls st { pl.options with offset := pl.options.offset + pl.options.limit }
            else if st.playbackRefreshing then
              let st := stopPlaybackMode st
              if st.config.playbackGoesLive then startLivefeed st else st
            else
              searchCalls { st with playbackRefreshing := true } pl.options
          else
            loadAndPlay st ((pl.results[i + 1]?.bind (fun c => c.id)).getD 0)

/-- The tail of `play()` after the current call is chosen: return unless the
call has audio or an audio URL; otherwise begin the asynchronous fetch or
decode (whose callbacks run later and are not part of this step). -/
def playGate (st : ClientState) : ClientState :=
  match st.call with
  | none => st
  | some c =>
    if c.audio.isNone && c.audioUrl.isNone then st
    else { st with playStarted := st.playStarted + 1 }

/-- `play(call?)`: with a truthy-audio argument replace the current call;
otherwise return when something is playing, else shift the next queued
call into the player. -/
def play (st : ClientState) (call? : Option RdioScannerCall) : ClientState :=
  if st.livefeedPaused || st.skipDelay then st
  else if (call?.map (fun c => c.audio.isSome)).getD false then
    let st := if st.call.isSome then stop st false else st
    let st := { st with call := call? }
    playGate st
  else if st.call.isSome then st
  else
    let st := { st with call := st.callQueue.head?, callQueue := st.callQueue.tail }
    playGate st

/-- `skip(options?)`: stop the current call, then either arm the one-second
delay timer (whose callback is asynchronous) or play at once — the next
playback-list call in playback mode, the next queued call otherwise. -/
def skip (st : ClientState) (delay : Bool) : ClientState :=
  let st := stop st true
  if delay then { st with skipDelay := true }
  else
    let st := { st with skipDelay := false }
    if st.livefeedMode = RdioScannerLivefeedMode.playback then playbackNextCall st else play st none

/-- `cleanQueue()`: keep only subscribed calls in the queue, and skip the
current call when it is no longer subscribed. -/
def cleanQueue (st : ClientState) : ClientState :=
  let st := { st with callQueue := st.callQueue.filter (fun c => isActiveCall st.livefeedMap c) }
  match st.call with
  | some c => if isActiveCall st.livefeedMap c then st else skip st false
  | none => st

/-- `transformCall(call)`: attach the configured system and talkgroup
records and promote the talkgroup's (truthy) frequency. -/
def transformCall (cfg : RdioScannerConfig) (call : RdioScannerCall) : RdioScannerCall :=
  let sysData := cfg.systems.find? (fun s => s.id == call.system)
  let call := { call with systemData := sysData }
  let call :=
    match sysData with
    | some s => { call with talkgroupData := s.talkgroups.find? (fun t => t.id == call.talkgroup) }
    | none => call
  match call.talkgroupData with
  | some tg =>
    match tg.frequency with
    | some f => if f ≠ 0 then { call with frequency := some f } else call
    | none => call
  | none => call

/-- Whether a call carries a non-empty audio payload
(`call?.audio && call.audio.data?.length`). -/
def audioPresentNonempty (c : RdioScannerCall) : Bool :=
  match c.audio with
  | some d => d.length != 0
  | none => false

/-- `queue(call, options?)`: reject calls with no playable audio, reject in
offline mode, push (or unshift on priority), and either emit the queue
depth while something plays or start playing. -/
def queue (st : ClientState) (call : RdioScannerCall) (priority : Bool) : ClientState :=
  if !audioPresentNonempty call && call.audioUrl.isNone then st
  else if st.livefeedMode = RdioScannerLivefeedMode.offline then st
  else
    let st :=
      if priority then { st with callQueue := call :: st.callQueue }
      else { st with callQueue := st.callQueue ++ [call] }
    if st.audioSource || st.call.isSome || st.livefeedPaused || st.skipDelay then
      { st with events := st.events + 1 }
    else play st none

/-- `download(call)`: hand the call to the anchor-element download path
when it has an audio URL or an audio payload. -/
def download (st : ClientState) (call : RdioScannerCall) : ClientState :=
  if call.audioUrl.isSome then { st with downloads := st.downloads ++ [call] }
  else if call.audio.isSome then { st with downloads := st.downloads ++ [call] }
  else st

/-- Modelled from the spec: the argument object of `avoid`
(`RdioScannerAvoidOptions` lives in the absent interface file); the fields
are those the service reads. -/
structure RdioScannerAvoidOptions where
  all : Option Bool
  call : Option RdioScannerCall
  system : Option RdioScannerSystem
  talkgroup : Option RdioScannerTalkgroup
  minutes : Option Nat
  status : Option Bool
deriving Repr, DecidableEq

/-- The per-entry mutation of `avoid`: clear the timer, toggle or set the
active flag, and re-arm the timer when minutes were given (the timer's
re-activation callback is asynchronous). -/
def avoidEntryUpdate (o : RdioScannerAvoidOptions)
    (entry : RdioScannerLivefeed) : RdioScannerLivefeed :=
  let entry := { entry with minutes := none, hasTimer := false }
  let entry := { entry with active := o.status.getD (!entry.active) }
  match o.minutes with
  | some m => { entry with minutes := some m, hasTimer := true }
  | none => entry

/-- The branch dispatch of `avoid` over its options: all entries, an
explicit call, a system/talkgroup pair, a whole system, or the current
(or previous) call. -/
def avoidCore (st : ClientState) (o : RdioScannerAvoidOptions) : ClientState :=
  match o.all with
  | some allv =>
    { st with livefeedMap := st.livefeedMap.map (fun p =>
        (p.1, p.2.map (fun q =>
          (q.1, { active := o.status.getD allv, minutes := none, hasTimer := false })))) }
  | none =>
    match o.call with
    | some c =>
      { st with livefeedMap := lfmUpdate st.livefeedMap c.system c.talkgroup (avoidEntryUpdate o) }
    | none =>
      match o.system, o.talkgroup with
      | some s, some t =>
        { st with livefeedMap := lfmUpdate st.livefeedMap s.id t.id (avoidEntryUpdate o) }
      | some s, none =>
        { st with livefeedMap := lfmUpdateSystem st.livefeedMap s.id (fun e =>
            { active := o.status.getD (!e.active), minutes := none, hasTimer := false }) }
      | none, _ =>
        match st.call <|> st.callPrevious with
        | some c =>
          { st with livefeedMap := lfmUpdate st.livefeedMap c.system c.talkgroup (avoidEntryUpdate o) }
        | none => st

/-- `avoid(options?)`: drop any hold priors, mutate the map per the
options, prune the queue outside playback mode, rebuild and save, restart
the live feed when online, and emit. -/
def avoid (st : ClientState) (o : RdioScannerAvoidOptions) : ClientState :=
  let st := { st with livefeedMapPriorToHoldSystem := none,
                      livefeedMapPriorToHoldTalkgroup := none }
  let st := avoidCore st o
  let st := if st.livefeedMode ≠ RdioScannerLivefeedMode.playback then cleanQueue st else st
  let st := rebuildCategories st
  let st := saveLivefeedMap st
  let st := if st.livefeedMode = RdioScannerLivefeedMode.online then startLivefeed st else st
  { st with events := st.events + 1 }

/-- The held map `holdSystem` builds: fresh entries that are active only on
the held system.  The TS `allOn` reads `!this.livefeedMap[sys][tg]` — the
truthiness of the entry object, not of its `active` flag — so it is true
only for a system with no talkgroup keys. -/
def holdSystemCoreMap (m : LivefeedMap) (callSystem : Nat) : LivefeedMap :=
  m.map (fun p =>
    let allOn := p.2.all (fun _ => false)
    (p.1, p.2.map (fun q =>
      (q.1, { active := if p.1 = callSystem then (allOn || q.2.active) else false,
              minutes := none, hasTimer := false }))))

/-- `holdSystem(options?)`: with a stored prior map release the hold;
otherwise (releasing a talkgroup hold first) store the map, narrow it to
the current call's system, prune the queue, and run the common tail. -/
def holdSystem (st : ClientState) (resubscribe : Bool) : ClientState :=
  match st.call <|> st.callPrevious with
  | none => st
  | some call =>
    if st.livefeedMapPriorToHoldSystem.isSome then holdSystemRelease st resubscribe
    else
      let st := if st.livefeedMapPriorToHoldTalkgroup.isSome then holdTalkgroupRelease st false else st
      let prior := st.livefeedMap
      let st := { st with livefeedMapPriorToHoldSystem := some prior,
                          livefeedMap := holdSystemCoreMap prior call.system }
      let st := cleanQueue st
      holdTail st resubscribe

/-- The held map `holdTalkgroup` builds: active exactly on the current
call's (system, talkgroup) pair. -/
def holdTalkgroupCoreMap (m : LivefeedMap) (callSystem callTalkgroup : Nat) : LivefeedMap :=
  m.map (fun p =>
    (p.1, p.2.map (fun q =>
      (q.1, { active := if p.1 = callSystem then decide (q.1 = callTalkgroup) else false,
              minutes := none, hasTimer := false }))))

/-- `holdTalkgroup(options?)`: the talkgroup-hold twin of `holdSystem`. -/
def holdTalkgroup (st : ClientState) (resubscribe : Bool) : ClientState :=
  match st.call <|> st.callPrevious with
  | none => st
  | some call =>
    if st.livefeedMapPriorToHoldTalkgroup.isSome then holdTalkgroupRelease st resubscribe
    else
      let st := if st.livefeedMapPriorToHoldSystem.isSome then holdSystemRelease st false else st
      let prior := st.livefeedMap
      let st := { st with livefeedMapPriorToHoldTalkgroup := some prior,
                          livefeedMap := holdTalkgroupCoreMap prior call.system call.talkgroup }
      let st := cleanQueue st
      holdTail st resubscribe

/-- The `clearTimer` helper of `toggleCategory` (it writes `minutes = 0`,
unlike the one of `avoid`, which writes `undefined`). -/
def toggleClearTimer (e : RdioScannerLivefeed) : RdioScannerLivefeed :=
  { e with minutes := some 0, hasTimer := false }

/-- `toggleCategory(category)`: drop any hold priors, set every talkgroup
carrying the category's label to the flipped status, rebuild, maybe skip
the current call (the TS guard `!map[sys] && map[sys][tg]` can only fire —
and would then throw — when the call's system key is absent; with the key
present, as the well-formedness hypotheses of the theorems require, the
branch is dead), resubscribe when online, save, prune the queue, emit. -/
def toggleCategory (st : ClientState) (cat : RdioScannerCategory) : ClientState :=
  let st := { st with livefeedMapPriorToHoldSystem := none,
                      livefeedMapPriorToHoldTalkgroup := none }
  let status := cat.status != RdioScannerCategoryStatus.on
  let m := st.config.systems.foldl (fun m sys =>
    sys.talkgroups.foldl (fun m tg =>
      if (cat.type = .group ∧ tg.group = cat.label) ∨ (cat.type = .tag ∧ tg.tag = cat.label) then
        lfmUpdate m sys.id tg.id (fun e => { toggleClearTimer e with active := status })
      else m) m) st.livefeedMap
  let st := { st with livefeedMap := m }
  let st := rebuildCategories st
  let st :=
    match st.call with
    | some c =>
      if (st.livefeedMap.lookup c.system).isNone && (lfmLookup st.livefeedMap c.system c.talkgroup).isSome then
        skip { st with livefeedMap := lfmUpdate st.livefeedMap c.system c.talkgroup toggleClearTimer } false
      else st
    | none => st
  let st := if st.livefeedMode = RdioScannerLivefeedMode.online then startLivefeed st else st
  let st := saveLivefeedMap st
  let st := cleanQueue st
  { st with events := st.events + 1 }

/-- A list of naturals from a JSON array (used for `patches` and the
audio byte array; non-numeric elements are dropped — the server never
sends any). -/
def jNatList (j : Option Json) : List Nat :=
  match j with
  | some (Json.arr xs) => xs.filterMap (fun x =>
      match x with
      | Json.num n => if 0 ≤ n then some n.toNat else none
      | _ => none)
  | _ => []

/-- The audio payload: the TS reads `call.audio.data` (a serialized Node
Buffer).  An audio object with a missing `data` field behaves like an
empty byte list on every verified path and is conflated with it. -/
def jAudio (j : Option Json) : Option (List Nat) :=
  match j with
  | some (Json.obj fs) => some (jNatList (jGet fs "data"))
  | _ => none

/-- The TS casts the wire payload to `RdioScannerCall` without validation;
this decoder reads the fields the service touches.  Missing numeric ids
default to 0 here; such degenerate calls carry no audio and are rejected
by `queue` exactly as in the source. -/
def callOfJson (j : Json) : RdioScannerCall :=
  match j with
  | Json.obj fs =>
    { id := jNat? (jGet fs "id")
      system := (jNat? (jGet fs "system")).getD 0
      talkgroup := (jNat? (jGet fs "talkgroup")).getD 0
      patches := jNatList (jGet fs "patches")
      frequency := jNat? (jGet fs "frequency")
      audio := jAudio (jGet fs "audio")
      audioName := jStr? (jGet fs "audioName")
      audioType := jStr? (jGet fs "audioType")
      audioUrl := jStr? (jGet fs "audioUrl")
      systemData := none
      talkgroupData := none }
  | _ =>
    { id := none, system := 0, talkgroup := 0, patches := [], frequency := none,
      audio := none, audioName := none, audioType := none, audioUrl := none,
      systemData := none, talkgroupData := none }

/-- Decode one talkgroup of the pushed config. -/
def talkgroupOfJson (j : Json) : RdioScannerTalkgroup :=
  match j with
  | Json.obj fs =>
    { id := (jNat? (jGet fs "id")).getD 0
      label := (jStr? (jGet fs "label")).getD ""
      name := (jStr? (jGet fs "name")).getD ""
      group := (jStr? (jGet fs "group")).getD ""
      tag := (jStr? (jGet fs "tag")).getD ""
      frequency := jNat? (jGet fs "frequency") }
  | _ => { id := 0, label := "", name := "", group := "", tag := "", frequency := none }

/-- Decode one system of the pushed config. -/
def systemOfJson (j : Json) : RdioScannerSystem :=
  match j with
  | Json.obj fs =>
    { id := (jNat? (jGet fs "id")).getD 0
      label := (jStr? (jGet fs "label")).getD ""
      talkgroups := match jGet fs "talkgroups" with
        | some (Json.arr xs) => xs.map talkgroupOfJson
        | _ => [] }
  | _ => { id := 0, label := "", talkgroups := [] }

/-- Decode the `groups`/`tags` maps (label → system → talkgroup ids); the
JS object keys are strings, converted with `+sys` by the service. -/
def categoryMapOfJson (j : Option Json) : CategoryMap :=
  match j with
  | some (Json.obj fs) =>
    fs.map (fun p =>
      (p.1, match p.2 with
        | Json.obj sysFs => sysFs.map (fun q => (q.1.toNat?.getD 0, jNatList (some q.2)))
        | _ => []))
  | _ => []

/-- The `CFG` payload as the service stores it (source lines 922–937):
each field is taken when it has the expected type, else replaced by its
default.  A null payload would throw in the TS (`config.branding` on
null); it decodes to the all-defaults config here. -/
def configOfJson (j : Json) : RdioScannerConfig :=
  match j with
  | Json.obj fs =>
    { branding := (jStr? (jGet fs "branding")).getD ""
      afs := match jStr? (jGet fs "afs") with
        | some s => if s ≠ "" then some s else none
        | none => none
      dimmerDelay := some ((jNat? (jGet fs "dimmerDelay")).getD 5000)
      groups := categoryMapOfJson (jGet fs "groups")
      keypadBeeps := match jGet fs "keypadBeeps" with
        | some (Json.obj _) => true
        | some (Json.arr _) => true
        | _ => false
      playbackGoesLive := (jBool? (jGet fs "playbackGoesLive")).getD false
      showListenersCount := (jBool? (jGet fs "showListenersCount")).getD false
      systems := match jGet fs "systems" with
        | some (Json.arr xs) => xs.map systemOfJson
        | _ => []
      tags := categoryMapOfJson (jGet fs "tags")
      tagsToggle := (jBool? (jGet fs "tagsToggle")).getD false
      time12hFormat := (jBool? (jGet fs "time12hFormat")).getD false }
  | _ =>
    { branding := "", afs := none, dimmerDelay := some 5000, groups := [],
      keypadBeeps := false, playbackGoesLive := false, showListenersCount := false,
      systems := [], tags := [], tagsToggle := false, time12hFormat := false }

/-- The default entry `rebuildLivefeedMap` creates for a talkgroup with no
stored entry: active unless the talkgroup's group or tag category is
currently Off. -/
def lfmDefaultEntry (cats : List RdioScannerCategory) (tg : RdioScannerTalkgroup) :
    RdioScannerLivefeed :=
  let g := cats.find? (fun c => c.label == tg.group)
  let t := cats.find? (fun c => c.label == tg.tag)
  { active := !((g.map (fun c => c.status == RdioScannerCategoryStatus.off)).getD false
      || (t.map (fun c => c.status == RdioScannerCategoryStatus.off)).getD false)
    minutes := none
    hasTimer := false }

/-- JS object assignment `map[key] = v`: replace the entry when the key is
present, append it otherwise. -/
def assocSet {α : Type} (l : List (Nat × α)) (k : Nat) (v : α) : List (Nat × α) :=
  if (l.lookup k).isSome then l.map (fun p => if p.1 = k then (k, v) else p)
  else l ++ [(k, v)]

/-- `rebuildLivefeedMap()`: rebuild the map from the configured systems,
keeping stored entries and defaulting new ones from the (old) categories;
store the result into whichever of the hold priors is active, else into
the live map; save; rebuild the categories. -/
def rebuildLivefeedMap (st : ClientState) : ClientState :=
  let base := st.livefeedMap
  let lfm := st.config.systems.foldl (fun acc sys =>
    let start := (acc.lookup sys.id).getD []
    let tgMap := sys.talkgroups.foldl (fun tgMap tg =>
      let entry := match lfmLookup base sys.id tg.id with
        | some e => e
        | none => lfmDefaultEntry st.categories tg
      assocSet tgMap tg.id entry) start
    assocSet acc sys.id tgMap) ([] : LivefeedMap)
  let st :=
    if st.livefeedMapPriorToHoldSystem.isSome then
      { st with livefeedMapPriorToHoldSystem := some lfm }
    else if st.livefeedMapPriorToHoldTalkgroup.isSome then
      { st with livefeedMapPriorToHoldTalkgroup := some lfm }
    else { st with livefeedMap := lfm }
  let st := saveLivefeedMap st
  rebuildCategories st

/-- The `CAL` case of the message switch: a null call is ignored; the `d`
flag routes to the download path (with the raw wire call); the `p` flag
with the pending playback id queues the transformed call with priority
after clearing the pending id; anything else queues the transformed call.
An absent payload (`message[1]` undefined) passes the `!== null` test in
the TS and flows into the last branch with a call that `queue` rejects. -/
def handleCAL (st : ClientState) (rest : List Json) : ClientState :=
  match rest.head? with
  | some Json.null => st
  | _ =>
    let rawCall := callOfJson (rest.head?.getD Json.null)
    if jsonIsStr rest[1]? "d" then
      download st rawCall
    else if jsonIsStr rest[1]? "p" && rawCall.id == st.playbackPending then
      let st := { st with playbackPending := none }
      queue st (transformCall st.config rawCall) true
    else
      queue st (transformCall st.config rawCall) false

/-- The `CFG` case: store the decoded config, rebuild the livefeed map,
resubscribe when online, and emit the new config. -/
def handleCFG (st : ClientState) (rest : List Json) : ClientState :=
  let cfg := configOfJson (rest.head?.getD Json.null)
  let st := { st with config := cfg }
  let st := rebuildLivefeedMap st
  let st := if st.livefeedMode = RdioScannerLivefeedMode.online then startLivefeed st else st
  { st with events := st.events + 1 }

/-- Decode the echoed search options of an `LCL` reply. -/
def searchOptionsOfJson (j : Option Json) : RdioScannerSearchOptions :=
  match j with
  | some (Json.obj fs) =>
    { sort := (jInt? (jGet fs "sort")).getD 0
      limit := (jNat? (jGet fs "limit")).getD 0
      offset := (jNat? (jGet fs "offset")).getD 0 }
  | _ => { sort := 0, limit := 0, offset := 0 }

/-- The `LCL` case: store the page, transform its results, emit, and in
playback mode advance to the next call.  A falsy payload clears the list
without emitting (a truthy non-object payload would throw in the TS and is
modelled as the cleared list). -/
def handleLCL (st : ClientState) (rest : List Json) : ClientState :=
  match rest.head? with
  | some (Json.obj fs) =>
    let results := match jGet fs "results" with
      | some (Json.arr xs) => xs.map callOfJson
      | _ => []
    let pl : RdioScannerPlaybackList :=
      { count := (jNat? (jGet fs "count")).getD 0
        options := searchOptionsOfJson (jGet fs "options")
        results := results.map (transformCall st.config) }
    let st := { st with playbackList := some pl, events := st.events + 1 }
    if st.livefeedMode = RdioScannerLivefeedMode.playback then playbackNextCall st else st
  | _ => { st with playbackList := none }

/-- The `VER` case: with an object payload adopt a string `branding`, and
emit when the stored branding is non-empty; other payloads are skipped. -/
def handleVER (st : ClientState) (rest : List Json) : ClientState :=
  match rest.head? with
  | some (Json.obj fs) =>
    let st2 := match jStr? (jGet fs "branding") with
      | some b => { st with config := { st.config with branding := b } }
      | none => st
    if st2.config.branding ≠ "" then { st2 with events := st2.events + 1 } else st2
  | some (Json.arr _) =>
    if st.config.branding ≠ "" then { st with events := st.events + 1 } else st
  | _ => st

/-- What `JSON.parse` made of an inbound frame: `notJson` when parsing
threw (the handler then sees the original string, which is not an array),
otherwise the parsed value. -/
inductive ParsedMessage where
  | notJson
  | value (v : Json)

/-- The nine command tags of the control protocol (§4.I of the spec). -/
def protocolTags : List String :=
  ["VER", "PIN", "XPR", "MAX", "CFG", "LFM", "CAL", "LCL", "LSC"]

/-- `parseWebsocketMessage(message)`: ignore anything that is not an
array; dispatch on the first element over the eight inbound cases of the
switch (`LFM` is client-to-server only and has no case); fall through —
leaving the state untouched and emitting nothing — for every other tag. -/
def parseWebsocketMessage (st : ClientState) (msg : ParsedMessage) : ClientState :=
  match msg with
  | .notJson => st
  | .value (Json.arr elems) =>
    match elems.head? with
    | some (Json.str tag) =>
      if tag = "CAL" then handleCAL st elems.tail
      else if tag = "CFG" then handleCFG st elems.tail
      else if tag = "XPR" then { st with events := st.events + 1 }
      else if tag = "LCL" then handleLCL st elems.tail
      else if tag = "LSC" then { st with events := st.events + 1 }
      else if tag = "MAX" then { st with events := st.events + 1 }
      else if tag = "PIN" then { st with events := st.events + 1 }
      else if tag = "VER" then handleVER st elems.tail
      else st
    | _ => st
  | .value _ => st

/-- `stopLivefeed()`: go offline, clear the queue, emit, stop the player,
and send the detach frame — `sendtoWebsocket(LFM, null)`, whose falsy
payload is dropped by the truthiness test of `sendtoWebsocket`. -/
def stopLivefeed (st : ClientState) : ClientState :=
  let st := { st with livefeedMode := RdioScannerLivefeedMode.offline }
  let st := clearQueue st
  let st := { st with events := st.events + 1 }
  let st := stop st true
  sendtoWebsocket st "LFM" (some Json.null) none

/-!
The store bootstrap layer (src/server/database.go).  A statement executed
against the store is a pair of the query text and its bound driver
arguments (`tx.Exec(query, args...)`); dialect constants come from the
configuration (their string values are those of §6 of the spec — the
constants themselves live in config.go, outside the sources).
-/

/-- An executed SQL statement: query text plus bound arguments. -/
abbrev SqlStmt := String × List String

/-- Modelled from the spec: the dialect constant `sqlite` (§6). -/
def DbTypeSqlite : String := "sqlite"

/-- Modelled from the spec: the dialect constant `mariadb` (§6). -/
def DbTypeMariadb : String := "mariadb"

/-- Modelled from the spec: the dialect constant `mysql` (§6). -/
def DbTypeMysql : String := "mysql"

/-- Modelled from the spec: the dialect constant `postgresql` (§6). -/
def DbTypePostgresql : String := "postgresql"

/-- The oracle that never fails a statement. -/
def noFail : SqlStmt → Bool := fun _ => false

/-- The abstract store state: the `rdioScannerMeta` table (absent before
`prepareMigration` creates it), the legacy `SequelizeMeta` table, the
committed statement log, and the rows of the seeded groups/tags tables. -/
structure DbState where
  meta : Option (List String)
  sequelizeMeta : Option (List String)
  schemaLog : List SqlStmt
  groups : List String
  tags : List String
deriving Repr, DecidableEq

/-- `prepareMigration`: when `rdioScannerMeta` is missing, rename a legacy
`SequelizeMeta` table to it, or create it empty (with `verbose = false`);
the meta-table DDL itself is assumed to succeed. -/
def prepareMigration (st : DbState) : DbState × Bool :=
  match st.meta with
  | some _ => (st, true)
  | none =>
    match st.sequelizeMeta with
    | some names => ({ st with meta := some names, sequelizeMeta := none }, true)
    | none => ({ st with meta := some [] }, false)

/-- The first failing statement of a transaction's schema queries (each is
executed with no bound arguments), as `tx.Exec` reports it. -/
def firstFailing (fails : SqlStmt → Bool) : List String → Option String
  | [] => none
  | q :: rest => if fails (q, []) then some q else firstFailing fails rest

/-- The recording insert of `migrateWithSchema` (the migration name is
interpolated into the query text, not bound). -/
def metaInsertQuery (dbType : String) (name : String) : String :=
  if dbType ≠ DbTypePostgresql then
    "insert into `rdioScannerMeta` (`name`) values ('" ++ name ++ "')"
  else
    "insert into rdioScannerMeta (name) values ('" ++ name ++ "')"

/-- `migrateWithSchema(name, schemas)`: skip when `name` is already in
`rdioScannerMeta`; otherwise open a transaction, execute the schema
statements and the recording insert, rolling back and returning the error
at the first failure, and commit.  A failed `Begin` is swallowed by the Go
code (it falls through to `return nil` without running anything); a failed
`Commit` is rolled back and returned. -/
def migrateWithSchema (dbType : String) (fails : SqlStmt → Bool)
    (beginFails commitFails : Bool) (name : String) (schemas : List String)
    (_verbose : Bool) (st : DbState) : DbState × Option String :=
  match st.meta with
  | none => (st, some "no such table: rdioScannerMeta")
  | some names =>
    if name ∈ names then (st, none)
    else if beginFails then (st, none)
    else
      match firstFailing fails schemas with
      | some q => (st, some (q ++ " failed"))
      | none =>
        if fails (metaInsertQuery dbType name, []) then
          (st, some (metaInsertQuery dbType name ++ " failed"))
        else if commitFails then (st, some "commit failed")
        else
          ({ st with meta := some (names ++ [name]),
                     schemaLog := st.schemaLog ++ schemas.map (fun q => (q, []))
                       ++ [(metaInsertQuery dbType name, [])] }, none)

/-- The schema of migration 20191028144433 per dialect. -/
def queries20191028144433 (dbType : String) : List String :=
  if dbType = DbTypeSqlite then
    ["create table `rdioScannerSystems` (`id` integer primary key autoincrement, `createdAt` datetime not null, `updatedAt` datetime not null, `name` varchar(255) not null, `system` integer not null, `talkgroups` json not null)",
     "create unique index `rdio_scanner_systems_system` on `rdioScannerSystems` (`system`)"]
  else if dbType = DbTypePostgresql then
    ["create table rdioScannerSystems (id serial primary key, createdAt timestamp not null, updatedAt timestamp not null, name varchar(255) not null, system integer not null, talkgroups json not null)",
     "create unique index rdio_scanner_systems_system on rdioScannerSystems (system)"]
  else
    ["create table `rdioScannerSystems` (`id` integer primary key auto_increment, `createdAt` datetime not null, `updatedAt` datetime not null, `name` varchar(255) not null, `system` integer not null, `talkgroups` json not null)",
     "create unique index `rdio_scanner_systems_system` on `rdioScannerSystems` (`system`)"]

/-- Migration 20191028144433. -/
def migration20191028144433 (dbType : String) (fails : SqlStmt → Bool)
    (bf cf : Bool) (verbose : Bool) (st : DbState) : DbState × Option String :=
  migrateWithSchema dbType fails bf cf "20191028144433-create-rdio-scanner-system"
    (queries20191028144433 dbType) verbose st

/-- The schema of migration 20191029092201 per dialect. -/
def queries20191029092201 (dbType : String) : List String :=
  if dbType = DbTypeSqlite then
    ["create table `rdioScannerCalls` (`id` integer primary key autoincrement, `createdAt` datetime not null, `updatedAt` datetime not null, `audio` longblob not null, `emergency` tinyint(1) not null, `freq` integer not null, `freqList` json not null, `startTime` datetime not null, `stopTime` datetime not null, `srcList` json not null, `system` integer not null, `talkgroup` integer not null)",
     "create index `rdio_scanner_calls_start_time` on `rdioScannerCalls` (`startTime`)",
     "create index `rdio_scanner_calls_system` on `rdioScannerCalls` (`system`)",
     "create index `rdio_scanner_calls_talkgroup` on `rdioScannerCalls` (`talkgroup`)"]
  else if dbType = DbTypePostgresql then
    ["create table rdioScannerCalls (id serial primary key, createdAt timestamp not null, updatedAt timestamp not null, audio bytea not null, emergency boolean not null, freq integer not null, freqList json not null, startTime timestamp not null, stopTime timestamp not null, srcList json not null, system integer not null, talkgroup integer not null)",
     "create index rdio_scanner_calls_start_time on rdioScannerCalls (startTime)",
     "create index rdio_scanner_calls_system on rdioScannerCalls (system)",
     "create index rdio_scanner_calls_talkgroup on rdioScannerCalls (talkgroup)"]
  else
    ["create table `rdioScannerCalls` (`id` integer primary key auto_increment, `createdAt` datetime not null, `updatedAt` datetime not null, `audio` longblob not null, `emergency` tinyint(1) not null, `freq` integer not null, `freqList` json not null, `startTime` datetime not null, `stopTime` datetime not null, `srcList` json not null, `system` integer not null, `talkgroup` integer not null)",
     "create index `rdio_scanner_calls_start_time` on `rdioScannerCalls` (`startTime`)",
     "create index `rdio_scanner_calls_system` on `rdioScannerCalls` (`system`)",
     "create index `rdio_scanner_calls_talkgroup` on `rdioScannerCalls` (`talkgroup`)"]

/-- Migration 20191029092201. -/
def migration20191029092201 (dbType : String) (fails : SqlStmt → Bool)
    (bf cf : Bool) (verbose : Bool) (st : DbState) : DbState × Option String :=
  migrateWithSchema dbType fails bf cf "20191029092201-create-rdio-scanner-call"
    (queries20191029092201 dbType) verbose st

/-- The schema of migration 20191126135515 per dialect. -/
def queries20191126135515 (dbType : String) : List String :=
  if dbType = DbTypeSqlite then
    ["drop index `rdio_scanner_calls_system`",
     "drop index `rdio_scanner_calls_talkgroup`"]
  else if dbType = DbTypePostgresql then
    ["drop index rdio_scanner_calls_system",
     "drop index rdio_scanner_calls_talkgroup"]
  else
    ["drop index `rdio_scanner_calls_system` on `rdioScannerCalls`",
     "drop index `rdio_scanner_calls_talkgroup` on `rdioScannerCalls`"]

/-- Migration 20191126135515. -/
def migration20191126135515 (dbType : String) (fails : SqlStmt → Bool)
    (bf cf : Bool) (verbose : Bool) (st : DbState) : DbState × Option String :=
  migrateWithSchema dbType fails bf cf "20191126135515-optimize-rdio-scanner-calls"
    (queries20191126135515 dbType) verbose st

/-- The schema of migration 20191220093214 per dialect. -/
def queries20191220093214 (dbType : String) : List String :=
  if dbType = DbTypeSqlite then
    ["alter table `rdioScannerCalls` add column `audioName` varchar(255)",
     "alter table `rdioScannerCalls` add column `audioType` varchar(255)",
     "alter table `rdioScannerSystems` add column `aliases` json not null"]
  else if dbType = DbTypePostgresql then
    ["alter table rdioScannerCalls add column audioName varchar(255)",
     "alter table rdioScannerCalls add column audioType varchar(255)",
     "alter table rdioScannerSystems add column aliases json not null"]
  else
    ["alter table `rdioScannerCalls` add column `audioName` varchar(255)",
     "alter table `rdioScannerCalls` add column `audioType` varchar(255)",
     "alter table `rdioScannerSystems` add column `aliases` json not null"]

/-- Migration 20191220093214. -/
def migration20191220093214 (dbType : String) (fails : SqlStmt → Bool)
    (bf cf : Bool) (verbose : Bool) (st : DbState) : DbState × Option String :=
  migrateWithSchema dbType fails bf cf "20191220093214-new-v3-tables"
    (queries20191220093214 dbType) verbose st

/-- The schema of migration 20200123094105 per dialect. -/
def queries20200123094105 (dbType : String) : List String :=
  if dbType = DbTypeSqlite then
    ["create index `rdio_scanner_calls_system` on `rdioScannerCalls` (`system`)",
     "create index `rdio_scanner_calls_system_talkgroup` on `rdioScannerCalls` (`system`, `talkgroup`)"]
  else if dbType = DbTypePostgresql then
    ["create index rdio_scanner_calls_system on rdioScannerCalls (system)",
     "create index rdio_scanner_calls_system_talkgroup on rdioScannerCalls (system, talkgroup)"]
  else
    ["create index `rdio_scanner_calls_system` on `rdioScannerCalls` (`system`)",
     "create index `rdio_scanner_calls_system_talkgroup` on `rdioScannerCalls` (`system`, `talkgroup`)"]

/-- Migration 20200123094105. -/
def migration20200123094105 (dbType : String) (fails : SqlStmt → Bool)
    (bf cf : Bool) (verbose : Bool) (st : DbState) : DbState × Option String :=
  migrateWithSchema dbType fails bf cf "20200123094105-optimize-rdio-scanner-calls"
    (queries20200123094105 dbType) verbose st

/-- The schema of migration 20200428132918 per dialect. -/
def queries20200428132918 (dbType : String) : List String :=
  if dbType = DbTypeSqlite then
    ["drop table `rdioScannerSystems`",
     "create table `rdioScannerCalls2` (`id` integer primary key autoincrement, `audio` longblob not null, `audioName` varchar(255), `audioType` varchar(255), `dateTime` datetime not null, `frequencies` json not null, `frequency` integer, `source` integer, `sources` json not null, `system` integer not null, `talkgroup` integer not null)",
     "insert into `rdioScannerCalls2` select `id`, `audio`, `audioName`, `audioType`, `startTime`, `freqList`, `freq`, null, `srcList`, `system`, `talkgroup` from `rdioScannerCalls`",
     "drop table `rdioScannerCalls`",
     "alter table `rdioScannerCalls2` rename to `rdioScannerCalls`",
     "create index `rdio_scanner_calls_date_time_system_talkgroup` on `rdioScannerCalls` (`dateTime`, `system`, `talkgroup`)"]
  else if dbType = DbTypePostgresql then
    ["drop table rdioScannerSystems",
     "create table rdioScannerCalls2 (id serial primary key, audio bytea not null, audioName varchar(255), audioType varchar(255), dateTime timestamp not null, frequencies json not null, frequency integer, source integer, sources json not null, system integer not null, talkgroup integer not null)",
     "insert into rdioScannerCalls2 select id, audio, audioName, audioType, startTime, freqList, freq, null, srcList, system, talkgroup from rdioScannerCalls",
     "drop table rdioScannerCalls",
     "alter table rdioScannerCalls2 rename to rdioScannerCalls",
     "create index rdio_scanner_calls_date_time_system_talkgroup on rdioScannerCalls (dateTime, system, talkgroup)"]
  else
    ["drop table `rdioScannerSystems`",
     "create table `rdioScannerCalls2` (`id` integer primary key auto_increment, `audio` longblob not null, `audioName` varchar(255), `audioType` varchar(255), `dateTime` datetime not null, `frequencies` json not null, `frequency` integer, `source` integer, `sources` json not null, `system` integer not null, `talkgroup` integer not null)",
     "insert into `rdioScannerCalls2` select `id`, `audio`, `audioName`, `audioType`, `startTime`, `freqList`, `freq`, null, `srcList`, `system`, `talkgroup` from `rdioScannerCalls`",
     "drop table `rdioScannerCalls`",
     "alter table `rdioScannerCalls2` rename to `rdioScannerCalls`",
     "create index `rdio_scanner_calls_date_time_system_talkgroup` on `rdioScannerCalls` (`dateTime`, `system`, `talkgroup`)"]

/-- Migration 20200428132918. -/
def migration20200428132918 (dbType : String) (fails : SqlStmt → Bool)
    (bf cf : Bool) (verbose : Bool) (st : DbState) : DbState × Option String :=
  migrateWithSchema dbType fails bf cf "20200428132918-new-v4-tables"
    (queries20200428132918 dbType) verbose st

/-- The schema of migration 20210115105958 per dialect. -/
def queries20210115105958 (dbType : String) : List String :=
  if dbType = DbTypeSqlite then
    ["create table `rdioScannerAccesses` (`_id` integer primary key autoincrement, `code` varchar(255) not null unique, `expiration` datetime, `ident` varchar(255), `limit` integer, `order` integer, `systems` text not null)",
     "create table `rdioScannerApiKeys` (`_id` integer primary key autoincrement, `disabled` tinyint(1) default 0, `ident` varchar(255), `key` varchar(255) not null unique, `order` integer, `systems` text not null)",
     "create table `rdioScannerCalls2` (`id` integer primary key autoincrement, `audio` longblob not null, `audioName` varchar(255), `audioType` varchar(255), `dateTime` datetime not null, `frequencies` text not null, `frequency` integer, `source` integer, `sources` text not null, `system` integer not null, `talkgroup` integer not null)",
     "create index `rdio_scanner_calls2_date_time_system_talkgroup` on `rdioScannerCalls2` (`dateTime`, `system`, `talkgroup`)",
     "insert into `rdioScannerCalls2` select `id`, `audio`, `audioName`, `audioType`, `dateTime`, `frequencies`, `frequency`, `source`, `sources`, `system`, `talkgroup` from `rdioScannerCalls`",
     "drop table `rdioScannerCalls`",
     "alter table `rdioScannerCalls2` rename to `rdioScannerCalls`",
     "create table `rdioScannerConfigs` (`_id` integer primary key autoincrement, `key` varchar(255) not null unique, `val` text not null)",
     "create index `rdio_scanner_configs_key` on `rdioScannerConfigs` (`key`)",
     "create table `rdioScannerDirWatches` (`_id` integer primary key autoincrement, `delay` integer default 0, `deleteAfter` tinyint(1) default 0, `directory` varchar(255) not null unique, `disabled` tinyint(1) default 0, `extension` varchar(255), `frequency` integer, `mask` varchar(255), `order` integer, `systemId` integer, `talkgroupId` integer, `type` varchar(255), `usePolling` tinyint(1) default 0)",
     "create table `rdioScannerDownstreams` (`_id` integer primary key autoincrement, `apiKey` varchar(255) not null unique, `disabled` tinyint(1) default 0, `order` integer, `systems` text not null, `url` varchar(255) not null)",
     "create table `rdioScannerGroups` (`_id` integer primary key autoincrement, `label` varchar(255) not null)",
     "create table `rdioScannerLogs` (`_id` integer primary key autoincrement, `dateTime` datetime not null, `level` varchar(255) not null, `message` varchar(255) not null)",
     "create index `rdio_scanner_logs_date_time_level` on `rdioScannerLogs` (`dateTime`, `level`)",
     "create table `rdioScannerSystems` (`_id` integer primary key autoincrement, `autoPopulate` tinyint(1) default 0, `blacklists` text not null, `id` integer not null unique, `label` varchar(255) not null, `led` varchar(255), `order` integer, `talkgroups` text not null, `units` text not null)",
     "create table `rdioScannerTags` (`_id` integer primary key autoincrement, `label` varchar(255) not null)"]
  else if dbType = DbTypePostgresql then
    ["create table rdioScannerAccesses (_id serial primary key, code varchar(255) not null unique, expiration timestamp, ident varchar(255), \"limit\" integer, \"order\" integer, systems text not null)",
     "create table rdioScannerApiKeys (_id serial primary key, disabled boolean default false, ident varchar(255), key varchar(255) not null unique, \"order\" integer, systems text not null)",
     "create table rdioScannerCalls2 (id serial primary key, audio bytea not null, audioName varchar(255), audioType varchar(255), dateTime timestamp not null, frequencies text not null, frequency integer, source integer, sources text not null, system integer not null, talkgroup integer not null)",
     "create index rdio_scanner_calls2_date_time_system_talkgroup on rdioScannerCalls2 (dateTime, system, talkgroup)",
     "insert into rdioScannerCalls2 select id, audio, audioName, audioType, dateTime, frequencies, frequency, source, sources, system, talkgroup from rdioScannerCalls",
     "drop table rdioScannerCalls",
     "alter table rdioScannerCalls2 rename to rdioScannerCalls",
     "create table rdioScannerConfigs (_id serial primary key, key varchar(255) not null unique, val text not null)",
     "create index rdio_scanner_configs_key on rdioScannerConfigs (key)",
     "create table rdioScannerDirWatches (_id serial primary key, delay integer default 0, deleteAfter boolean default false, directory varchar(255) not null unique, disabled boolean default false, extension varchar(255), frequency integer, mask varchar(255), \"order\" integer, systemId integer, talkgroupId integer, type varchar(255), usePolling boolean default false)",
     "create table rdioScannerDownstreams (_id serial primary key, apiKey varchar(255) not null unique, disabled boolean default false, \"order\" integer, systems text not null, url varchar(255) not null)",
     "create table rdioScannerGroups (_id serial primary key, label varchar(255) not null)",
     "create table rdioScannerLogs (_id serial primary key, dateTime timestamp not null, level varchar(255) not null, message varchar(255) not null)",
     "create index rdio_scanner_logs_date_time_level on rdioScannerLogs (dateTime, level)",
     "create table rdioScannerSystems (_id serial primary key, autoPopulate boolean default false, blacklists text not null, id integer not null unique, label varchar(255) not null, led varchar(255), \"order\" integer, talkgroups text not null, units text not null)",
     "create table rdioScannerTags (_id serial primary key, label varchar(255) not null)"]
  else
    ["create table `rdioScannerAccesses` (`_id` integer primary key auto_increment, `code` varchar(255) not null unique, `expiration` datetime, `ident` varchar(255), `limit` integer, `order` integer, `systems` text not null)",
     "create table `rdioScannerApiKeys` (`_id` integer primary key auto_increment, `disabled` tinyint(1) default 0, `ident` varchar(255), `key` varchar(255) not null unique, `order` integer, `systems` text not null)",
     "create table `rdioScannerCalls2` (`id` integer primary key auto_increment, `audio` longblob not null, `audioName` varchar(255), `audioType` varchar(255), `dateTime` datetime not null, `frequencies` text not null, `frequency` integer, `source` integer, `sources` text not null, `system` integer not null, `talkgroup` integer not null)",
     "create index `rdio_scanner_calls2_date_time_system_talkgroup` on `rdioScannerCalls2` (`dateTime`, `system`, `talkgroup`)",
     "insert into `rdioScannerCalls2` select `id`, `audio`, `audioName`, `audioType`, `dateTime`, `frequencies`, `frequency`, `source`, `sources`, `system`, `talkgroup` from `rdioScannerCalls`",
     "drop table `rdioScannerCalls`",
     "alter table `rdioScannerCalls2` rename to `rdioScannerCalls`",
     "create table `rdioScannerConfigs` (`_id` integer primary key auto_increment, `key` varchar(255) not null unique, `val` text not null)",
     "create index `rdio_scanner_configs_key` on `rdioScannerConfigs` (`key`)",
     "create table `rdioScannerDirWatches` (`_id` integer primary key auto_increment, `delay` integer default 0, `deleteAfter` tinyint(1) default 0, `directory` varchar(255) not null unique, `disabled` tinyint(1) default 0, `extension` varchar(255), `frequency` integer, `mask` varchar(255), `order` integer, `systemId` integer, `talkgroupId` integer, `type` varchar(255), `usePolling` tinyint(1) default 0)",
     "create table `rdioScannerDownstreams` (`_id` integer primary key auto_increment, `apiKey` varchar(255) not null unique, `disabled` tinyint(1) default 0, `order` integer, `systems` text not null, `url` varchar(255) not null)",
     "create table `rdioScannerGroups` (`_id` integer primary key auto_increment, `label` varchar(255) not null)",
     "create table `rdioScannerLogs` (`_id` integer primary key auto_increment, `dateTime` datetime not null, `level` varchar(255) not null, `message` varchar(255) not null)",
     "create index `rdio_scanner_logs_date_time_level` on `rdioScannerLogs` (`dateTime`, `level`)",
     "create table `rdioScannerSystems` (`_id` integer primary key auto_increment, `autoPopulate` tinyint(1) default 0, `blacklists` text not null, `id` integer not null unique, `label` varchar(255) not null, `led` varchar(255), `order` integer, `talkgroups` text not null, `units` text not null)",
     "create table `rdioScannerTags` (`_id` integer primary key auto_increment, `label` varchar(255) not null)"]

/-- Migration 20210115105958. -/
def migration20210115105958 (dbType : String) (fails : SqlStmt → Bool)
    (bf cf : Bool) (verbose : Bool) (st : DbState) : DbState × Option String :=
  migrateWithSchema dbType fails bf cf "20210115105958-new-v5.1-tables"
    (queries20210115105958 dbType) verbose st

/-- The schema of migration 20210830092027 per dialect. -/
def queries20210830092027 (dbType : String) : List String :=
  if dbType = DbTypeSqlite then
    ["create table `rdioScannerSystems2` (`_id` integer primary key autoincrement, `autoPopulate` tinyint(1) default 0, `blacklists` text not null, `id` integer not null unique, `label` varchar(255) not null, `led` varchar(255), `order` integer, `talkgroups` longtext not null, `units` longtext not null)",
     "insert into `rdioScannerSystems2` select `_id`, `autoPopulate`, `blacklists`, `id`, `label`, `led`, `order`, `talkgroups`, `units` from `rdioScannerSystems`",
     "drop table `rdioScannerSystems`",
     "alter table `rdioScannerSystems2` rename to `rdioScannerSystems`",
     "drop index `rdio_scanner_calls2_date_time_system_talkgroup`",
     "create index `rdio_scanner_calls_date_time_system_talkgroup` on `rdioScannerCalls` (`dateTime`, `system`, `talkgroup`)"]
  else if dbType = DbTypePostgresql then
    ["create table rdioScannerSystems2 (_id serial primary key, autoPopulate boolean default false, blacklists text not null, id integer not null unique, label varchar(255) not null, led varchar(255), \"order\" integer, talkgroups text not null, units text not null)",
     "insert into rdioScannerSystems2 select _id, autoPopulate, blacklists, id, label, led, \"order\", talkgroups, units from rdioScannerSystems",
     "drop table rdioScannerSystems",
     "alter table rdioScannerSystems2 rename to rdioScannerSystems",
     "drop index rdio_scanner_calls2_date_time_system_talkgroup",
     "create index rdio_scanner_calls_date_time_system_talkgroup on rdioScannerCalls (dateTime, system, talkgroup)"]
  else
    ["alter table `rdioScannerSystems` modify `talkgroups` longtext null not null",
     "alter table `rdioScannerSystems` modify `units` longtext null not null",
     "drop index `rdio_scanner_calls2_date_time_system_talkgroup` on `rdioScannerCalls`",
     "create index `rdio_scanner_calls_date_time_system_talkgroup` on `rdioScannerCalls` (`dateTime`, `system`, `talkgroup`)"]

/-- Migration 20210830092027. -/
def migration20210830092027 (dbType : String) (fails : SqlStmt → Bool)
    (bf cf : Bool) (verbose : Bool) (st : DbState) : DbState × Option String :=
  migrateWithSchema dbType fails bf cf "20210830092027-v6.0-rename-index"
    (queries20210830092027 dbType) verbose st

/-- The schema of migration 20211202094819 per dialect. -/
def queries20211202094819 (dbType : String) : List String :=
  if dbType = DbTypeSqlite then
    ["alter table `rdioScannerDownstreams` rename to `rdioScannerDownstreams2`",
     "create table `rdioScannerDownstreams` (`_id` integer primary key autoincrement, `apiKey` varchar(255) not null, `disabled` tinyint(1) default 0, `order` integer, `systems` text not null, `url` varchar(255) not null)",
     "insert into `rdioScannerDownstreams` select * from `rdioScannerDownstreams2`",
     "drop table `rdioScannerDownstreams2`"]
  else if dbType = DbTypePostgresql then
    ["alter table rdioScannerDownstreams rename to rdioScannerDownstreams2",
     "create table rdioScannerDownstreams (_id serial primary key, apiKey varchar(255) not null, disabled boolean default false, \"order\" integer, systems text not null, url varchar(255) not null)",
     "insert into rdioScannerDownstreams select * from rdioScannerDownstreams2",
     "drop table rdioScannerDownstreams2"]
  else
    ["alter table `rdioScannerDownstreams` rename to `rdioScannerDownstreams2`",
     "create table `rdioScannerDownstreams` (`_id` integer primary key auto_increment, `apiKey` varchar(255) not null, `disabled` tinyint(1) default 0, `order` integer, `systems` text not null, `url` varchar(255) not null)",
     "insert into `rdioScannerDownstreams` select * from `rdioScannerDownstreams2`",
     "drop table `rdioScannerDownstreams2`"]

/-- Migration 20211202094819. -/
def migration20211202094819 (dbType : String) (fails : SqlStmt → Bool)
    (bf cf : Bool) (verbose : Bool) (st : DbState) : DbState × Option String :=
  migrateWithSchema dbType fails bf cf "20211202094819-v6.0.2-alter-table"
    (queries20211202094819 dbType) verbose st

/-- `strings.ReplaceAll(s, "'", "''")` of the legacy-row conversion:
double every apostrophe. -/
def escapeSqlChars : List Char → List Char
  | [] => []
  | c :: rest =>
    if c = Char.ofNat 39 then c :: c :: escapeSqlChars rest
    else c :: escapeSqlChars rest

/-- Apostrophe-doubling over a string. -/
def escapeSqlString (s : String) : String :=
  String.mk (escapeSqlChars s.data)

/-- A possibly-absent numeric value rendered into SQL text (`%v` of a uint
or the literal `null`). -/
def sqlOptNat : Option Nat → String
  | some n => toString n
  | none => "null"

/-- A possibly-absent led color rendered into SQL text: a quoted escaped
string or the literal `null`. -/
def sqlOptLed : Option String → String
  | some l => "'" ++ escapeSqlString l ++ "'"
  | none => "null"

/-- The talkgroup insert that migration 20220101070000 builds from each
legacy row (`fmt.Sprintf` — the label, led and name values are
interpolated into the query text, not bound). -/
def talkgroupInsertQuery (dbType : String) (frequency : Option Nat)
    (groupId tgId : Nat) (label : String) (led : Option String) (name : String)
    (tgOrder sysId tagId : Nat) : String :=
  if dbType ≠ DbTypePostgresql then
    "insert into `rdioScannerTalkgroups` (`frequency`, `groupId`, `id`, `label`, `led`, `name`, `order`, `systemId`, `tagId`) values ("
      ++ sqlOptNat frequency ++ ", " ++ toString groupId ++ ", " ++ toString tgId
      ++ ", '" ++ escapeSqlString label ++ "', " ++ sqlOptLed led
      ++ ", '" ++ escapeSqlString name ++ "', " ++ toString tgOrder
      ++ ", " ++ toString sysId ++ ", " ++ toString tagId ++ ")"
  else
    "insert into rdioScannerTalkgroups (frequency, groupId, id, label, led, name, \"order\", systemId, tagId) values ("
      ++ sqlOptNat frequency ++ ", " ++ toString groupId ++ ", " ++ toString tgId
      ++ ", '" ++ escapeSqlString label ++ "', " ++ sqlOptLed led
      ++ ", '" ++ escapeSqlString name ++ "', " ++ toString tgOrder
      ++ ", " ++ toString sysId ++ ", " ++ toString tagId ++ ")"

/-- The unit insert that migration 20220101070000 builds from each legacy
row. -/
def unitInsertQuery (dbType : String) (unitId : Nat) (label : String)
    (unitOrder sysId : Nat) : String :=
  if dbType ≠ DbTypePostgresql then
    "insert into `rdioScannerUnits` (`id`, `label`, `order`, `systemId`) values ("
      ++ toString unitId ++ ", '" ++ escapeSqlString label ++ "', "
      ++ toString unitOrder ++ ", " ++ toString sysId ++ ")"
  else
    "insert into rdioScannerUnits (id, label, \"order\", systemId) values ("
      ++ toString unitId ++ ", '" ++ escapeSqlString label ++ "', "
      ++ toString unitOrder ++ ", " ++ toString sysId ++ ")"

/-- The static schema of migration 20220101070000 per dialect (the dynamic
talkgroup/unit inserts are appended from the legacy rows). -/
def queries20220101070000 (dbType : String) : List String :=
  if dbType = DbTypeSqlite then
    ["create table `rdioScannerCalls2` (`id` integer primary key autoincrement, `audio` longblob not null, `audioName` varchar(255), `audioType` varchar(255), `dateTime` datetime not null, `frequencies` text not null, `frequency` integer, `patches` text not null, `source` integer, `sources` text not null, `system` integer not null, `talkgroup` integer not null)",
     "insert into `rdioScannerCalls2` select `id`, `audio`, `audioName`, `audioType`, `dateTime`, `frequencies`, `frequency`, '[]', `source`, `sources`, `system`, `talkgroup` from `rdioScannerCalls`",
     "drop table `rdioScannerCalls`",
     "alter table `rdioScannerCalls2` rename to `rdioScannerCalls`",
     "create index `rdio_scanner_calls_date_time_system_talkgroup` on `rdioScannerCalls` (`dateTime`, `system`, `talkgroup`)",
     "create table `rdioScannerSystems2` (`_id` integer primary key autoincrement, `autoPopulate` tinyint(1) default 0, `blacklists` text not null, `id` integer not null unique, `label` varchar(255) not null, `led` varchar(255), `order` integer)",
     "insert into `rdioScannerSystems2` select `_id`, `autoPopulate`, `blacklists`, `id`, `label`, `led`, `order` from `rdioScannerSystems`",
     "drop table `rdioScannerSystems`",
     "alter table `rdioScannerSystems2` rename to `rdioScannerSystems`",
     "create table `rdioScannerTalkgroups` (`_id` integer primary key autoincrement, `frequency` integer, `groupId` integer not null, `id` integer not null, `label` varchar(255) not null, `led` varchar(255), `name` varchar(255) not null, `order` integer, `systemId` integer not null, `tagId` integer not null)",
     "create unique index `rdio_scanner_talkgroups_system_id_id` on `rdioScannerTalkgroups` (`systemId`, `id`)",
     "create table `rdioScannerUnits` (`_id` integer primary key autoincrement, `id` integer not null, `label` varchar(255) not null, `order` integer, `systemId` integer not null)",
     "create unique index `rdio_scanner_units_system_id_id` on `rdioScannerUnits` (`systemId`, `id`)"]
  else if dbType = DbTypePostgresql then
    ["alter table rdioScannerCalls add column patches text not null",
     "alter table rdioScannerSystems drop column talkgroups",
     "alter table rdioScannerSystems drop column units",
     "create table rdioScannerTalkgroups (_id serial primary key, frequency integer, groupId integer not null, id integer not null, label varchar(255) not null, led varchar(255), name varchar(255) not null, \"order\" integer, systemId integer not null, tagId integer not null)",
     "create unique index rdio_scanner_talkgroups_system_id_id on rdioScannerTalkgroups (systemId, id)",
     "create table rdioScannerUnits (_id serial primary key, id integer not null, label varchar(255) not null, \"order\" integer, systemId integer not null)",
     "create unique index rdio_scanner_units_system_id_id on rdioScannerUnits (systemId, id)"]
  else
    ["alter table `rdioScannerCalls` add column `patches` text not null",
     "alter table `rdioScannerSystems` drop column `talkgroups`",
     "alter table `rdioScannerSystems` drop column `units`",
     "create table `rdioScannerTalkgroups` (`_id` integer primary key auto_increment, `frequency` integer, `groupId` integer not null, `id` integer not null, `label` varchar(255) not null, `led` varchar(255), `name` varchar(255) not null, `order` integer, `systemId` integer not null, `tagId` integer not null)",
     "create unique index `rdio_scanner_talkgroups_system_id_id` on `rdioScannerTalkgroups` (`systemId`, `id`)",
     "create table `rdioScannerUnits` (`_id` integer primary key auto_increment, `id` integer not null, `label` varchar(255) not null, `order` integer, `systemId` integer not null)",
     "create unique index `rdio_scanner_units_system_id_id` on `rdioScannerUnits` (`systemId`, `id`)"]

/-- The outcome of the legacy-systems read that migration 20220101070000
performs before its schema step: the `select` itself failing is silently
skipped by the Go code (no dynamic inserts); a scan/unmarshal failure
aborts the migration; otherwise the dynamic insert statements built from
the rows (via `talkgroupInsertQuery`/`unitInsertQuery`). -/
inductive LegacyRead where
  | queryFailed : LegacyRead
  | rowError (e : String) : LegacyRead
  | rows (dyn : List String) : LegacyRead

/-- Migration 20220101070000 (v6.1.0): read the legacy rows, then apply
the static schema plus the dynamic inserts through `migrateWithSchema`. -/
def migration20220101070000 (dbType : String) (fails : SqlStmt → Bool)
    (bf cf : Bool) (legacy : LegacyRead) (verbose : Bool) (st : DbState) :
    DbState × Option String :=
  match legacy with
  | .rowError e => (st, some e)
  | .queryFailed =>
    migrateWithSchema dbType fails bf cf "20220101070000-v6.1.0"
      (queries20220101070000 dbType) verbose st
  | .rows dyn =>
    migrateWithSchema dbType fails bf cf "20220101070000-v6.1.0"
      (queries20220101070000 dbType ++ dyn) verbose st

/-- The schema of migration 20250321180900 per dialect. -/
def queries20250321180900 (dbType : String) : List String :=
  if dbType = DbTypeSqlite then
    ["alter table `rdioScannerCalls` add column `audioUrl` TEXT"]
  else if dbType = DbTypePostgresql then
    ["alter table rdioScannerCalls add column audioUrl TEXT"]
  else
    ["alter table `rdioScannerCalls` add column `audioUrl` TEXT"]

/-- Migration 20250321180900 (add audioUrl). -/
def migration20250321180900 (dbType : String) (fails : SqlStmt → Bool)
    (bf cf : Bool) (verbose : Bool) (st : DbState) : DbState × Option String :=
  migrateWithSchema dbType fails bf cf "migration20250321180900-add-audio-url"
    (queries20250321180900 dbType) verbose st

/-- The schema of migration 20250322153000 per dialect (the Go raw-string
literals are kept with their whitespace collapsed). -/
def queries20250322153000 (dbType : String) : List String :=
  if dbType = DbTypeSqlite then
    ["create table \"rdioScannerCalls2\" (\"id\" integer primary key autoincrement, \"audio\" longblob, \"audioName\" varchar(255), \"audioType\" varchar(255), \"dateTime\" datetime not null, \"frequencies\" text not null, \"frequency\" integer, \"patches\" text not null, \"source\" integer, \"sources\" text not null, \"system\" integer not null, \"talkgroup\" integer not null, \"audioUrl\" text)",
     "insert into \"rdioScannerCalls2\" select \"id\", \"audio\", \"audioName\", \"audioType\", \"dateTime\", \"frequencies\", \"frequency\", \"patches\", \"source\", \"sources\", \"system\", \"talkgroup\", \"audioUrl\" from \"rdioScannerCalls\"",
     "drop table \"rdioScannerCalls\"",
     "alter table \"rdioScannerCalls2\" rename to \"rdioScannerCalls\"",
     "create index \"rdio_scanner_calls_date_time_system_talkgroup\" on \"rdioScannerCalls\" (\"dateTime\", \"system\", \"talkgroup\")"]
  else if dbType = DbTypePostgresql then
    ["alter table rdioScannerCalls alter column audio drop not null"]
  else
    ["alter table rdioScannerCalls modify column audio longblob null"]

/-- Migration 20250322153000 (audio column nullable). -/
def migration20250322153000 (dbType : String) (fails : SqlStmt → Bool)
    (bf cf : Bool) (verbose : Bool) (st : DbState) : DbState × Option String :=
  migrateWithSchema dbType fails bf cf "migration20250322153000-audio-column-nullable"
    (queries20250322153000 dbType) verbose st

/-- The `if err == nil` chaining of `migrate`: run the next step only while
no step has failed. -/
def bindMigration (r : DbState × Option String)
    (step : DbState → DbState × Option String) : DbState × Option String :=
  match r with
  | (st, none) => step st
  | r => r

/-- `migrate()`: `prepareMigration`, then the twelve migrations in order,
stopping at the first error. -/
def migrate (dbType : String) (fails : SqlStmt → Bool) (bf cf : Bool)
    (legacy : LegacyRead) (st : DbState) : DbState × Option String :=
  let p := prepareMigration st
  let v := p.2
  let r := migration20191028144433 dbType fails bf cf v p.1
  let r := bindMigration r (migration20191029092201 dbType fails bf cf v)
  let r := bindMigration r (migration20191126135515 dbType fails bf cf v)
  let r := bindMigration r (migration20191220093214 dbType fails bf cf v)
  let r := bindMigration r (migration20200123094105 dbType fails bf cf v)
  let r := bindMigration r (migration20200428132918 dbType fails bf cf v)
  let r := bindMigration r (migration20210115105958 dbType fails bf cf v)
  let r := bindMigration r (migration20210830092027 dbType fails bf cf v)
  let r := bindMigration r (migration20211202094819 dbType fails bf cf v)
  let r := bindMigration r (migration20220101070000 dbType fails bf cf legacy v)
  let r := bindMigration r (migration20250321180900 dbType fails bf cf v)
  bindMigration r (migration20250322153000 dbType fails bf cf v)

/-- The parameterized group-seeding insert: a `?`/`$1` placeholder in the
query text, the label bound as a driver argument. -/
def seedGroupInsert (dbType : String) (label : String) : SqlStmt :=
  if dbType ≠ DbTypePostgresql then
    ("insert into `rdioScannerGroups` (`label`) values (?)", [label])
  else
    ("insert into rdioScannerGroups (label) values ($1)", [label])

/-- The parameterized tag-seeding insert. -/
def seedTagInsert (dbType : String) (label : String) : SqlStmt :=
  if dbType ≠ DbTypePostgresql then
    ("insert into `rdioScannerTags` (`label`) values (?)", [label])
  else
    ("insert into rdioScannerTags (label) values ($1)", [label])

/-- The first failing statement of a list of parameterized inserts. -/
def firstFailingStmt (fails : SqlStmt → Bool) : List SqlStmt → Option SqlStmt
  | [] => none
  | s :: rest => if fails s then some s else firstFailingStmt fails rest

/-- `seedGroups()`: when the groups table is empty, insert the default
group labels in one transaction, rolling back and returning the error at
the first failing insert; a failed `Begin` or `Commit` is also returned
(state unchanged).  The default labels come from defaults.go (outside the
sources) and are passed in. -/
def seedGroups (dbType : String) (fails : SqlStmt → Bool) (bf cf : Bool)
    (defaultGroups : List String) (st : DbState) : DbState × Option String :=
  if st.groups ≠ [] then (st, none)
  else if bf then (st, some "database.seedgroups: begin failed")
  else
    match firstFailingStmt fails (defaultGroups.map (seedGroupInsert dbType)) with
    | some s => (st, some ("database.seedgroups: " ++ s.1 ++ " failed"))
    | none =>
      if cf then (st, some "database.seedgroups: commit failed")
      else
        ({ st with groups := defaultGroups,
                   schemaLog := st.schemaLog ++ defaultGroups.map (seedGroupInsert dbType) }, none)

/-- `seedTags()`: the tag twin of `seedGroups`. -/
def seedTags (dbType : String) (fails : SqlStmt → Bool) (bf cf : Bool)
    (defaultTags : List String) (st : DbState) : DbState × Option String :=
  if st.tags ≠ [] then (st, none)
  else if bf then (st, some "database.seedtags: begin failed")
  else
    match firstFailingStmt fails (defaultTags.map (seedTagInsert dbType)) with
    | some s => (st, some ("database.seedtags: " ++ s.1 ++ " failed"))
    | none =>
      if cf then (st, some "database.seedtags: commit failed")
      else
        ({ st with tags := defaultTags,
                   schemaLog := st.schemaLog ++ defaultTags.map (seedTagInsert dbType) }, none)

/-- `seed()`: groups, then tags. -/
def seed (dbType : String) (fails : SqlStmt → Bool) (bf cf : Bool)
    (defaultGroups defaultTags : List String) (st : DbState) : DbState × Option String :=
  match seedGroups dbType fails bf cf defaultGroups st with
  | (st1, none) => seedTags dbType fails bf cf defaultTags st1
  | r => r

/-- The connection-pool settings `NewDatabase` applies
(`SetConnMaxLifetime(time.Minute)`, `SetMaxIdleConns(25)`,
`SetMaxOpenConns(25)`). -/
structure PoolSettings where
  connMaxLifetimeSeconds : Nat
  maxIdleConns : Nat
  maxOpenConns : Nat
deriving Repr, DecidableEq

/-- The outcome of `NewDatabase`: either the process exits (`log.Fatal` /
`log.Fatalf` print and call `os.Exit(1)`) or the configured database value
is returned. -/
inductive StartupResult where
  | fatal (exitCode : Nat) : StartupResult
  | ok (dateTimeFormat : String) (pool : PoolSettings) (st : DbState) : StartupResult
deriving Repr, DecidableEq

/-- `NewDatabase(config)`: select the dialect (unknown dialects
`log.Fatalf`), open the driver (`openFails` oracles an `sql.Open` error,
which is `log.Fatal`ed), apply the pool settings, run the migrations and
the seeding, `log.Fatal`ing on any error. -/
def NewDatabase (dbType : String) (openFails : Bool) (fails : SqlStmt → Bool)
    (bf cf : Bool) (legacy : LegacyRead) (defaultGroups defaultTags : List String)
    (st : DbState) : StartupResult :=
  let fmt? : Option String :=
    if dbType = DbTypeSqlite then some "2006-01-02 15:04:05.000 -07:00"
    else if dbType = DbTypeMariadb ∨ dbType = DbTypeMysql then some "2006-01-02 15:04:05"
    else if dbType = DbTypePostgresql then some "2006-01-02 15:04:05.000000+00"
    else none
  match fmt? with
  | none => .fatal 1
  | some fmt =>
    if openFails then .fatal 1
    else
      let pool : PoolSettings :=
        { connMaxLifetimeSeconds := 60, maxIdleConns := 25, maxOpenConns := 25 }
      match migrate dbType fails bf cf legacy st with
      | (_, some _) => .fatal 1
      | (st1, none) =>
        match seed dbType fails bf cf defaultGroups defaultTags st1 with
        | (_, some _) => .fatal 1
        | (st2, none) => .ok fmt pool st2

/-!
Predicates and concrete sample values used by the verified statements.
-/

/-- The queue invariant of the subscription filter: every pending call —
and the currently playing one, when any — satisfies the `cleanQueue`
predicate against the current livefeed map. -/
def queueOk (st : ClientState) : Bool :=
  st.callQueue.all (fun c => isActiveCall st.livefeedMap c) &&
  (match st.call with
   | none => true
   | some c => isActiveCall st.livefeedMap c)

/-- Well-formedness of an `avoid` invocation: the livefeed entries the
chosen branch dereferences exist (the TS would throw a TypeError
otherwise, aborting before the queue is pruned). -/
def avoidWf (st : ClientState) (o : RdioScannerAvoidOptions) : Bool :=
  match o.all with
  | some _ => true
  | none =>
    match o.call with
    | some c => (lfmLookup st.livefeedMap c.system c.talkgroup).isSome
    | none =>
      match o.system, o.talkgroup with
      | some s, some t => (lfmLookup st.livefeedMap s.id t.id).isSome
      | some s, none => (st.livefeedMap.lookup s.id).isSome
      | none, _ =>
        match st.call <|> st.callPrevious with
        | some c => (lfmLookup st.livefeedMap c.system c.talkgroup).isSome
        | none => true

/-- Well-formedness of the livefeed map against the config: every
configured talkgroup has an entry, and the group/tag category tables only
reference existing entries of present systems (`toggleCategory` and
`rebuildCategories` dereference these). -/
def configMapWf (cfg : RdioScannerConfig) (m : LivefeedMap) : Bool :=
  cfg.systems.all (fun s => s.talkgroups.all (fun t => (lfmLookup m s.id t.id).isSome))
  && cfg.groups.all (fun p => p.2.all (fun q =>
      (m.lookup q.1).isNone || q.2.all (fun tg => (lfmLookup m q.1 tg).isSome)))
  && cfg.tags.all (fun p => p.2.all (fun q =>
      (m.lookup q.1).isNone || q.2.all (fun tg => (lfmLookup m q.1 tg).isSome)))

/-- A sample call on system 1, talkgroup 1001, with an audio payload. -/
def sampleCall : RdioScannerCall :=
  { id := some 7, system := 1, talkgroup := 1001, patches := [], frequency := none,
    audio := some [1, 2, 3], audioName := none, audioType := none, audioUrl := none,
    systemData := none, talkgroupData := none }

/-- A sample call on system 1, talkgroup 2, with no audio. -/
def c2Call : RdioScannerCall :=
  { id := none, system := 1, talkgroup := 2, patches := [], frequency := none,
    audio := none, audioName := none, audioType := none, audioUrl := none,
    systemData := none, talkgroupData := none }

/-- A fresh client state with an open websocket. -/
def c1State : ClientState :=
  { initialState with websocketReady := true }

/-- A client state whose livefeed map holds system 1 with talkgroup 2
inactive. -/
def c2State : ClientState :=
  { initialState with livefeedMap := [(1, [(2, { active := false, minutes := none, hasTimer := false })])] }

/-- An online client state that is currently playing `sampleCall`, with
talkgroup 1001 of system 1 active and a pending playback id 7. -/
def c6State : ClientState :=
  { initialState with
      livefeedMode := RdioScannerLivefeedMode.online
      livefeedMap := [(1, [(1001, { active := true, minutes := none, hasTimer := false })])]
      call := some sampleCall
      playbackPending := some 7 }

/-- The wire form of a call with an audio URL, as the `CAL` push carries
it. -/
def sampleUrlCallJson : Json :=
  Json.obj [("id", Json.num 7), ("system", Json.num 1), ("talkgroup", Json.num 1001),
            ("audioUrl", Json.str "http://example.test/a.m4a")]

/-- An online client state for the queue-invariant witness: one active and
one avoided talkgroup, an unsubscribed call stuck in the queue, and an
unsubscribed current call. -/
def c10State : ClientState :=
  { initialState with
      livefeedMode := RdioScannerLivefeedMode.online
      livefeedMap := [(1, [(1001, { active := true, minutes := none, hasTimer := false }),
                           (2, { active := false, minutes := none, hasTimer := false })])]
      call := some c2Call
      callPrevious := some sampleCall
      callQueue := [c2Call, sampleCall] }

/-- An empty store (no tables yet). -/
def freshDb : DbState :=
  { meta := none, sequelizeMeta := none, schemaLog := [], groups := [], tags := [] }

/-- A store whose meta table exists and is empty. -/
def metaReadyDb : DbState :=
  { freshDb with meta := some [] }

/-- A failure oracle that fails exactly the statements with the given
query text. -/
def failOn (q : String) : SqlStmt → Bool :=
  fun s => s.1 == q

/-- The names of the twelve migrations, in order. -/
def migrationNames : List String :=
  ["20191028144433-create-rdio-scanner-system",
   "20191029092201-create-rdio-scanner-call",
   "20191126135515-optimize-rdio-scanner-calls",
   "20191220093214-new-v3-tables",
   "20200123094105-optimize-rdio-scanner-calls",
   "20200428132918-new-v4-tables",
   "20210115105958-new-v5.1-tables",
   "20210830092027-v6.0-rename-index",
   "20211202094819-v6.0.2-alter-table",
   "20220101070000-v6.1.0",
   "migration20250321180900-add-audio-url",
   "migration20250322153000-audio-column-nullable"]

/-- A store on which every migration is recorded and both seed tables are
populated. -/
def migratedDb : DbState :=
  { meta := some migrationNames, sequelizeMeta := none, schemaLog := [],
    groups := ["Other"], tags := ["Untagged"] }

/-- A fully migrated store whose seed tables are still empty. -/
def seedableDb : DbState :=
  { migratedDb with groups := [], tags := [] }

/-- The meta table records a migration name. -/
def metaHas (st : DbState) (n : String) : Prop :=
  ∃ ns, st.meta = some ns ∧ n ∈ ns

/-!
Helper lemmas, then the verified claims.
-/

theorem mem_of_head?_eq {α : Type} {l : List α} {a : α} (h : l.head? = some a) : a ∈ l := by
  cases l with
  | nil => simp at h
  | cons x xs => simp at h; simp [h]

theorem mem_of_mem_tail' {α : Type} {l : List α} {a : α} (h : a ∈ l.tail) : a ∈ l := by
  cases l with
  | nil => simp at h
  | cons x xs => exact List.mem_cons_of_mem x h

theorem all_filter_self {α : Type} (p : α → Bool) (l : List α) :
    (l.filter p).all p = true := by
  rw [List.all_eq_true]
  intro a ha
  exact List.of_mem_filter ha

/-- C1 (counterexample): on a fresh connected client, `stopLivefeed` puts
the frame `["LFM"]` on the wire — the null payload is dropped by
`sendtoWebsocket`'s truthiness test — and not `["LFM", null]`. -/
theorem c1_stopLivefeed_counterexample :
    (stopLivefeed c1State).sent = [Json.arr [Json.str "LFM"]] ∧
    (stopLivefeed c1State).sent ≠ [Json.arr [Json.str "LFM", Json.null]] := by
  refine ⟨rfl, ?_⟩
  intro h
  rw [show (stopLivefeed c1State).sent = [Json.arr [Json.str "LFM"]] from rfl] at h
  simp at h

/-- C1 (amended): when the websocket is open, `stopLivefeed` transmits the
detach request as the bare array `["LFM"]` — `sendtoWebsocket` omits the
falsy `null` payload — after switching to offline mode and clearing the
queue. -/
theorem c1_stopLivefeed_amended (st : ClientState) (h : st.websocketReady = true) :
    (stopLivefeed st).sent = st.sent ++ [Json.arr [Json.str "LFM"]] ∧
    (stopLivefeed st).livefeedMode = RdioScannerLivefeedMode.offline ∧
    (stopLivefeed st).callQueue = [] := by
  unfold stopLivefeed clearQueue stop sendtoWebsocket
  cases hc : st.call <;> simp [h, Json.truthy]

/-- C1 (witness): the amended statement evaluated on the fresh connected
client. -/
theorem c1_stopLivefeed_witness :
    (stopLivefeed c1State).sent = c1State.sent ++ [Json.arr [Json.str "LFM"]] ∧
    (stopLivefeed c1State).livefeedMode = RdioScannerLivefeedMode.offline ∧
    (stopLivefeed c1State).callQueue = [] :=
  c1_stopLivefeed_amended c1State rfl

/-- C2 (counterexample): with an empty livefeed map, the pair (1, 2) of
`c2Call` has no active entry — the system key itself is absent — yet
`isAvoided` returns `false`, not `true` as the claim states. -/
theorem c2_isAvoided_counterexample :
    initialState.livefeedMap.lookup c2Call.system = none ∧
    lfmLookup initialState.livefeedMap c2Call.system c2Call.talkgroup = none ∧
    isAvoided initialState c2Call = false :=
  ⟨rfl, rfl, rfl⟩

/-- C2 (amended): a pair with no active entry is treated as avoided only
when the system key is present — `isAvoided` is true iff the system key
exists and the talkgroup entry under it does not have `active = true` (a
missing entry under a present system counts as avoided, an active one
does not); with the system key absent, `isAvoided` returns `false`. -/
theorem c2_isAvoided_amended (st : ClientState) (c : RdioScannerCall) :
    (isAvoided st c = true ↔
      ((st.livefeedMap.lookup c.system).isSome = true ∧
        ((lfmLookup st.livefeedMap c.system c.talkgroup).all (fun e => !e.active)) = true))
    ∧ (st.livefeedMap.lookup c.system = none → isAvoided st c = false) := by
  unfold isAvoided lfmLookup
  cases hs : st.livefeedMap.lookup c.system with
  | none => simp
  | some tgMap =>
    simp only [Option.isSome_some, Option.some_bind]
    cases ht : tgMap.lookup c.talkgroup with
    | none => simp
    | some e => simp [Option.all]

/-- C2 (witness): the amended statement evaluated on a map holding an
inactive entry for (1, 2), on the empty map, and on a map holding an
active entry for (1, 1001): only the inactive present pair is avoided. -/
theorem c2_isAvoided_witness :
    isAvoided c2State c2Call = true ∧ isAvoided initialState c2Call = false ∧
    isAvoided c10State sampleCall = false :=
  ⟨((c2_isAvoided_amended c2State c2Call).1).mpr ⟨rfl, rfl⟩,
   (c2_isAvoided_amended initialState c2Call).2 rfl,
   by
     cases hv : isAvoided c10State sampleCall with
     | false => rfl
     | true =>
       have h := ((c2_isAvoided_amended c10State sampleCall).1).mp hv
       exact absurd h.2 (by decide)⟩

/-- C5: an inbound message whose parsed value is not a JSON array — parse
failures included — or whose first element is not one of the nine protocol
tags leaves the whole client state (config, livefeedMap, callQueue,
playbackList, livefeedMode included) unchanged and emits no event: the
result state is the input state. -/
theorem c5_unknown_message_ignored (st : ClientState) :
    (parseWebsocketMessage st ParsedMessage.notJson = st)
    ∧ (∀ v : Json, (∀ elems, v ≠ Json.arr elems) →
        parseWebsocketMessage st (ParsedMessage.value v) = st)
    ∧ (∀ elems tag, elems.head? = some (Json.str tag) → tag ∉ protocolTags →
        parseWebsocketMessage st (ParsedMessage.value (Json.arr elems)) = st)
    ∧ (∀ elems, (∀ s, elems.head? ≠ some (Json.str s)) →
        parseWebsocketMessage st (ParsedMessage.value (Json.arr elems)) = st) := by
  refine ⟨rfl, ?_, ?_, ?_⟩
  · intro v h
    cases v with
    | arr elems => exact absurd rfl (h elems)
    | null => rfl
    | bool b => rfl
    | num n => rfl
    | str s => rfl
    | obj fields => rfl
  · intro elems tag hhead hmem
    simp only [protocolTags, List.mem_cons, List.mem_singleton, not_or] at hmem
    obtain ⟨h1, h2, h3, h4, h5, h6, h7, h8, h9⟩ := hmem
    simp only [parseWebsocketMessage, hhead]
    simp [h1, h2, h3, h4, h5, h6, h7, h8, h9]
  · intro elems h
    cases elems with
    | nil => rfl
    | cons x rest =>
      cases x with
      | str s => exact absurd rfl (h s)
      | null => rfl
      | bool b => rfl
      | num n => rfl
      | arr ys => rfl
      | obj fs => rfl

/-- C5 (witness): a frame with the unknown tag `ZZZ` evaluated on the
fresh client state. -/
theorem c5_unknown_message_witness :
    parseWebsocketMessage initialState (ParsedMessage.value (Json.arr [Json.str "ZZZ"])) = initialState
    ∧ "ZZZ" ∉ protocolTags :=
  ⟨(c5_unknown_message_ignored initialState).2.2.1 [Json.str "ZZZ"] "ZZZ" rfl (by decide),
   by decide⟩

theorem transformCall_preserves (cfg : RdioScannerConfig) (c : RdioScannerCall) :
    (transformCall cfg c).audioUrl = c.audioUrl ∧ (transformCall cfg c).audio = c.audio
      ∧ (transformCall cfg c).id = c.id := by
  unfold transformCall
  simp only []
  cases hfind : List.find? (fun s => s.id == c.system) cfg.systems <;>
    simp only [hfind] <;> (repeat' split) <;> exact ⟨rfl, rfl, rfl⟩

theorem queue_busy (st : ClientState) (call : RdioScannerCall) (priority : Bool)
    (hurl : call.audioUrl.isSome = true)
    (hcall : st.call.isSome = true)
    (hmode : st.livefeedMode ≠ RdioScannerLivefeedMode.offline) :
    queue st call priority =
      if priority then { st with callQueue := call :: st.callQueue, events := st.events + 1 }
      else { st with callQueue := st.callQueue ++ [call], events := st.events + 1 } := by
  have h1 : call.audioUrl.isNone = false := by
    cases hu : call.audioUrl with
    | none => rw [hu] at hurl; simp at hurl
    | some u => rfl
  unfold queue
  rw [h1]
  simp only [Bool.and_false, if_false, Bool.false_eq_true]
  rw [if_neg hmode]
  cases priority with
  | true => simp [hcall]
  | false => simp [hcall]

/-- C6: on `["CAL", call, flag]` with a non-null call (here: an object
payload with an audio URL), the client dispatches on the echoed flag —
download exactly when the flag is `d`; priority queueing of the
transformed call with the pending id cleared when the flag is `p` and the
call's id equals the pending playback id; plain queueing of the
transformed call otherwise.  The hypotheses place the client in the state
the claim speaks about: something is playing (so `queue` only enqueues)
and the live feed is not offline (so `queue` accepts). -/
theorem c6_cal_flag_dispatch (st : ClientState) (fs : List (String × Json)) (flag : String)
    (hurl : (callOfJson (Json.obj fs)).audioUrl.isSome = true)
    (hcall : st.call.isSome = true)
    (hmode : st.livefeedMode ≠ RdioScannerLivefeedMode.offline) :
    (flag = "d" →
      parseWebsocketMessage st (ParsedMessage.value (Json.arr [Json.str "CAL", Json.obj fs, Json.str flag]))
        = { st with downloads := st.downloads ++ [callOfJson (Json.obj fs)] })
    ∧ (flag ≠ "d" →
        (parseWebsocketMessage st (ParsedMessage.value (Json.arr [Json.str "CAL", Json.obj fs, Json.str flag]))).downloads
          = st.downloads)
    ∧ (flag = "p" → (callOfJson (Json.obj fs)).id = st.playbackPending →
        parseWebsocketMessage st (ParsedMessage.value (Json.arr [Json.str "CAL", Json.obj fs, Json.str flag]))
          = { st with playbackPending := none,
                      callQueue := transformCall st.config (callOfJson (Json.obj fs)) :: st.callQueue,
                      events := st.events + 1 })
    ∧ (flag ≠ "d" → ¬(flag = "p" ∧ (callOfJson (Json.obj fs)).id = st.playbackPending) →
        parseWebsocketMessage st (ParsedMessage.value (Json.arr [Json.str "CAL", Json.obj fs, Json.str flag]))
          = { st with callQueue := st.callQueue ++ [transformCall st.config (callOfJson (Json.obj fs))],
                      events := st.events + 1 }) := by
  have hred : parseWebsocketMessage st (ParsedMessage.value (Json.arr [Json.str "CAL", Json.obj fs, Json.str flag]))
      = handleCAL st [Json.obj fs, Json.str flag] := rfl
  have hcal : handleCAL st [Json.obj fs, Json.str flag] =
      (if jsonIsStr (some (Json.str flag)) "d" then
        download st (callOfJson (Json.obj fs))
      else if jsonIsStr (some (Json.str flag)) "p" && ((callOfJson (Json.obj fs)).id == st.playbackPending) then
        queue { st with playbackPending := none }
          (transformCall st.config (callOfJson (Json.obj fs))) true
      else
        queue st (transformCall st.config (callOfJson (Json.obj fs))) false) := rfl
  have htu : (transformCall st.config (callOfJson (Json.obj fs))).audioUrl.isSome = true := by
    rw [(transformCall_preserves st.config (callOfJson (Json.obj fs))).1]
    exact hurl
  have e1 : flag = "d" →
      parseWebsocketMessage st (ParsedMessage.value (Json.arr [Json.str "CAL", Json.obj fs, Json.str flag]))
        = { st with downloads := st.downloads ++ [callOfJson (Json.obj fs)] } := by
    intro hd
    subst hd
    rw [hred, hcal]
    simp [jsonIsStr, download, hurl]
  have e3 : flag = "p" → (callOfJson (Json.obj fs)).id = st.playbackPending →
      parseWebsocketMessage st (ParsedMessage.value (Json.arr [Json.str "CAL", Json.obj fs, Json.str flag]))
        = { st with playbackPending := none,
                    callQueue := transformCall st.config (callOfJson (Json.obj fs)) :: st.callQueue,
                    events := st.events + 1 } := by
    intro hp hid
    subst hp
    rw [hred, hcal]
    have hcall2 : ({ st with playbackPending := none } : ClientState).call.isSome = true := hcall
    have hmode2 : ({ st with playbackPending := none } : ClientState).livefeedMode
        ≠ RdioScannerLivefeedMode.offline := hmode
    rw [show (jsonIsStr (some (Json.str "p")) "d") = false from rfl]
    simp only [Bool.false_eq_true, if_false]
    rw [show (jsonIsStr (some (Json.str "p")) "p") = true from rfl]
    rw [show ((callOfJson (Json.obj fs)).id == st.playbackPending) = true from beq_iff_eq.mpr hid]
    simp only [Bool.and_self, if_true]
    rw [queue_busy _ _ _ htu hcall2 hmode2]
    simp
  have e4 : flag ≠ "d" → ¬(flag = "p" ∧ (callOfJson (Json.obj fs)).id = st.playbackPending) →
      parseWebsocketMessage st (ParsedMessage.value (Json.arr [Json.str "CAL", Json.obj fs, Json.str flag]))
        = { st with callQueue := st.callQueue ++ [transformCall st.config (callOfJson (Json.obj fs))],
                    events := st.events + 1 } := by
    intro hd hnp
    rw [hred, hcal]
    have hbd : (flag == "d") = false := beq_eq_false_iff_ne.mpr hd
    have hq : (jsonIsStr (some (Json.str flag)) "d") = false := by
      simp only [jsonIsStr]; exact hbd
    rw [hq]
    simp only [Bool.false_eq_true, if_false]
    have hsecond : (jsonIsStr (some (Json.str flag)) "p" && ((callOfJson (Json.obj fs)).id == st.playbackPending)) = false := by
      by_cases hp : flag = "p"
      · have hid : (callOfJson (Json.obj fs)).id ≠ st.playbackPending := fun h => hnp ⟨hp, h⟩
        rw [show ((callOfJson (Json.obj fs)).id == st.playbackPending) = false from beq_eq_false_iff_ne.mpr hid]
        simp
      · have : (flag == "p") = false := beq_eq_false_iff_ne.mpr hp
        simp [jsonIsStr, this]
    rw [hsecond]
    simp only [Bool.false_eq_true, if_false]
    rw [queue_busy _ _ _ htu hcall hmode]
    simp
  refine ⟨e1, ?_, e3, e4⟩
  intro hd
  by_cases hp : flag = "p" ∧ (callOfJson (Json.obj fs)).id = st.playbackPending
  · rw [e3 hp.1 hp.2]
  · rw [e4 hd hp]

/-- C6 (witness): the `d` flag on a concrete call push triggers the
download path on the playing online client. -/
theorem c6_cal_flag_witness :
    parseWebsocketMessage c6State (ParsedMessage.value (Json.arr [Json.str "CAL", sampleUrlCallJson, Json.str "d"]))
      = { c6State with downloads := c6State.downloads ++ [callOfJson sampleUrlCallJson] } :=
  (c6_cal_flag_dispatch c6State
    [("id", Json.num 7), ("system", Json.num 1), ("talkgroup", Json.num 1001),
     ("audioUrl", Json.str "http://example.test/a.m4a")] "d" rfl rfl (by decide)).1 rfl

theorem all_tail {α : Type} (p : α → Bool) (l : List α) (h : l.all p = true) :
    l.tail.all p = true := by
  rw [List.all_eq_true] at *
  intro a ha
  exact h a (mem_of_mem_tail' ha)

theorem head?_pred {α : Type} (p : α → Bool) (l : List α) (a : α)
    (h : l.all p = true) (hh : l.head? = some a) : p a = true := by
  rw [List.all_eq_true] at h
  exact h a (mem_of_head?_eq hh)

theorem queueOk_intro (st : ClientState)
    (h1 : st.callQueue.all (fun c => isActiveCall st.livefeedMap c) = true)
    (h2 : st.call.all (fun c => isActiveCall st.livefeedMap c) = true) :
    queueOk st = true := by
  unfold queueOk
  rw [h1]
  cases hc : st.call with
  | none => rfl
  | some c =>
    rw [hc] at h2
    simpa [Option.all] using h2

theorem stop_fields (st : ClientState) (emit : Bool) :
    (stop st emit).call = none ∧ (stop st emit).callQueue = st.callQueue ∧
    (stop st emit).livefeedMap = st.livefeedMap ∧
    (stop st emit).livefeedMode = st.livefeedMode ∧
    (stop st emit).livefeedPaused = st.livefeedPaused ∧
    (stop st emit).skipDelay = st.skipDelay := by
  unfold stop
  simp only []
  cases hcl : st.call <;> cases emit <;>
    simp only [hcl] <;> exact ⟨by first | rfl | exact hcl, rfl, rfl, rfl, rfl, rfl⟩

theorem skip_now_eq (st : ClientState)
    (hmode : st.livefeedMode ≠ RdioScannerLivefeedMode.playback) :
    skip st false = play { stop st true with skipDelay := false } none := by
  unfold skip
  have hm : ({ stop st true with skipDelay := false } : ClientState).livefeedMode
      = st.livefeedMode := (stop_fields st true).2.2.2.1
  simp only [Bool.false_eq_true, if_false]
  rw [if_neg (by rw [hm]; exact hmode)]

theorem playGate_cases (st : ClientState) :
    playGate st = st ∨ playGate st = { st with playStarted := st.playStarted + 1 } := by
  unfold playGate
  split
  · exact Or.inl rfl
  · split
    · exact Or.inl rfl
    · exact Or.inr rfl

theorem play_none_cases (st : ClientState) (hc : st.call = none) :
    play st none = st ∨
    play st none = playGate { st with call := st.callQueue.head?, callQueue := st.callQueue.tail } := by
  unfold play
  split
  · exact Or.inl rfl
  · simp only [Option.map_none', Option.getD_none, Bool.false_eq_true, if_false, hc,
      Option.isSome_none]
    first
    | exact Or.inr rfl
    | exact Or.inr trivial

theorem play_none_queueOk (st : ClientState)
    (hq : st.callQueue.all (fun c => isActiveCall st.livefeedMap c) = true)
    (hc : st.call = none) :
    queueOk (play st none) = true ∧ (play st none).livefeedMap = st.livefeedMap ∧
    (play st none).livefeedMode = st.livefeedMode := by
  rcases play_none_cases st hc with h | h <;> rw [h]
  · exact ⟨queueOk_intro st hq (by rw [hc]; rfl), rfl, rfl⟩
  · have hqt : st.callQueue.tail.all (fun c => isActiveCall st.livefeedMap c) = true :=
      all_tail _ _ hq
    have hhd : st.callQueue.head?.all (fun c => isActiveCall st.livefeedMap c) = true := by
      cases hh : st.callQueue.head? with
      | none => rfl
      | some c2 => simpa [Option.all] using head?_pred _ _ _ hq hh
    rcases playGate_cases { st with call := st.callQueue.head?, callQueue := st.callQueue.tail }
      with hg | hg <;> rw [hg]
    · exact ⟨queueOk_intro _ hqt hhd, rfl, rfl⟩
    · exact ⟨queueOk_intro _ hqt hhd, rfl, rfl⟩

theorem skip_queueOk (st : ClientState)
    (hmode : st.livefeedMode ≠ RdioScannerLivefeedMode.playback)
    (hq : st.callQueue.all (fun c => isActiveCall st.livefeedMap c) = true) :
    queueOk (skip st false) = true ∧ (skip st false).livefeedMap = st.livefeedMap ∧
    (skip st false).livefeedMode = st.livefeedMode := by
  rw [skip_now_eq st hmode]
  have hc2 : ({ stop st true with skipDelay := false } : ClientState).call = none :=
    (stop_fields st true).1
  have hmap2 : ({ stop st true with skipDelay := false } : ClientState).livefeedMap
      = st.livefeedMap := (stop_fields st true).2.2.1
  have hmode2 : ({ stop st true with skipDelay := false } : ClientState).livefeedMode
      = st.livefeedMode := (stop_fields st true).2.2.2.1
  have hq2 : ({ stop st true with skipDelay := false } : ClientState).callQueue.all
      (fun c => isActiveCall ({ stop st true with skipDelay := false } : ClientState).livefeedMap c) = true := by
    rw [show ({ stop st true with skipDelay := false } : ClientState).callQueue
        = (stop st true).callQueue from rfl, (stop_fields st true).2.1, hmap2]
    exact hq
  obtain ⟨hok, hmp, hmd⟩ := play_none_queueOk _ hq2 hc2
  exact ⟨hok, hmp.trans hmap2, hmd.trans hmode2⟩

theorem cleanQueue_ok (st : ClientState)
    (hmode : st.livefeedMode ≠ RdioScannerLivefeedMode.playback) :
    queueOk (cleanQueue st) = true ∧ (cleanQueue st).livefeedMap = st.livefeedMap ∧
    (cleanQueue st).livefeedMode = st.livefeedMode := by
  unfold cleanQueue
  simp only []
  cases hcl : st.call with
  | none =>
    simp only [hcl]
    exact ⟨queueOk_intro _ (all_filter_self _ _) rfl, by trivial, by trivial⟩
  | some c =>
    simp only [hcl]
    by_cases hact : isActiveCall st.livefeedMap c = true
    · rw [if_pos hact]
      exact ⟨queueOk_intro _ (all_filter_self _ _) (by simpa [Option.all] using hact), by trivial, by trivial⟩
    · rw [if_neg hact]
      obtain ⟨h1, h2, h3⟩ := skip_queueOk
        { st with call := some c,
                  callQueue := st.callQueue.filter (fun c => isActiveCall st.livefeedMap c) }
        hmode (all_filter_self _ _)
      exact ⟨h1, h2, h3⟩

theorem queueOk_of_fields (st st' : ClientState)
    (hq : st'.callQueue = st.callQueue) (hc : st'.call = st.call)
    (hm : st'.livefeedMap = st.livefeedMap) (h : queueOk st = true) : queueOk st' = true := by
  unfold queueOk at *
  rw [hq, hc, hm]
  exact h

theorem startLivefeed_fields (st : ClientState) :
    (startLivefeed st).callQueue = st.callQueue ∧ (startLivefeed st).call = st.call ∧
    (startLivefeed st).livefeedMap = st.livefeedMap := by
  unfold startLivefeed sendtoWebsocket
  simp only []
  split <;> exact ⟨rfl, rfl, rfl⟩

theorem ifStart_fields (s : ClientState) (cond : Prop) [Decidable cond] :
    ((if cond then startLivefeed s else s).callQueue = s.callQueue) ∧
    ((if cond then startLivefeed s else s).call = s.call) ∧
    ((if cond then startLivefeed s else s).livefeedMap = s.livefeedMap) := by
  split
  · exact startLivefeed_fields s
  · exact ⟨rfl, rfl, rfl⟩

theorem avoidCore_fields (st : ClientState) (o : RdioScannerAvoidOptions) :
    (avoidCore st o).callQueue = st.callQueue ∧ (avoidCore st o).call = st.call ∧
    (avoidCore st o).livefeedMode = st.livefeedMode := by
  obtain ⟨all, ocall, osys, otg, omin, ostat⟩ := o
  unfold avoidCore
  cases all
  case some a => exact ⟨rfl, rfl, rfl⟩
  case none =>
  cases ocall
  case some c => exact ⟨rfl, rfl, rfl⟩
  case none =>
  cases osys <;> cases otg
  case none.none =>
    cases h : st.call <|> st.callPrevious <;> simp only [h] <;> refine ⟨?_, ?_, ?_⟩ <;> trivial
  case none.some =>
    cases h : st.call <|> st.callPrevious <;> simp only [h] <;> refine ⟨?_, ?_, ?_⟩ <;> trivial
  case some.none => exact ⟨rfl, rfl, rfl⟩
  case some.some => exact ⟨rfl, rfl, rfl⟩

theorem holdTail_fields (s : ClientState) (r : Bool) :
    (holdTail s r).callQueue = s.callQueue ∧ (holdTail s r).call = s.call ∧
    (holdTail s r).livefeedMap = s.livefeedMap := by
  unfold holdTail rebuildCategories
  simp only []
  split
  · exact ⟨(startLivefeed_fields _).1, (startLivefeed_fields _).2.1,
      (startLivefeed_fields _).2.2⟩
  · exact ⟨rfl, rfl, rfl⟩

theorem holdTalkgroupRelease_false_fields (s : ClientState) :
    (holdTalkgroupRelease s false).callQueue = s.callQueue ∧
    (holdTalkgroupRelease s false).call = s.call ∧
    (holdTalkgroupRelease s false).livefeedMode = s.livefeedMode := by
  unfold holdTalkgroupRelease
  split
  · exact ⟨rfl, rfl, rfl⟩
  · exact ⟨rfl, rfl, rfl⟩

theorem holdSystemRelease_false_fields (s : ClientState) :
    (holdSystemRelease s false).callQueue = s.callQueue ∧
    (holdSystemRelease s false).call = s.call ∧
    (holdSystemRelease s false).livefeedMode = s.livefeedMode := by
  unfold holdSystemRelease
  split
  · exact ⟨rfl, rfl, rfl⟩
  · exact ⟨rfl, rfl, rfl⟩

theorem holdFinish_queueOk (B : ClientState) (resub : Bool)
    (hmode : B.livefeedMode ≠ RdioScannerLivefeedMode.playback) :
    queueOk (holdTail (cleanQueue B) resub) = true := by
  obtain ⟨hok, hmap, hmd⟩ := cleanQueue_ok B hmode
  exact queueOk_of_fields _ _ (holdTail_fields _ _).1 (holdTail_fields _ _).2.1
    (holdTail_fields _ _).2.2 hok

theorem startLivefeed_mode (s : ClientState) :
    (startLivefeed s).livefeedMode = RdioScannerLivefeedMode.online := by
  unfold startLivefeed sendtoWebsocket
  simp only []
  split <;> rfl

theorem avoid_queueOk (st : ClientState) (o : RdioScannerAvoidOptions)
    (hmode : st.livefeedMode ≠ RdioScannerLivefeedMode.playback) :
    queueOk (avoid st o) = true := by
  unfold avoid
  simp only []
  set stM := avoidCore
    { st with livefeedMapPriorToHoldSystem := none, livefeedMapPriorToHoldTalkgroup := none } o
    with hstM
  have hm1 : stM.livefeedMode = st.livefeedMode := (avoidCore_fields _ o).2.2
  have hcond : stM.livefeedMode ≠ RdioScannerLivefeedMode.playback := by
    rw [hm1]; exact hmode
  rw [if_pos hcond]
  obtain ⟨hok, hmap, hmd⟩ := cleanQueue_ok stM hcond
  exact queueOk_of_fields (cleanQueue stM) _
    ((ifStart_fields (saveLivefeedMap (rebuildCategories (cleanQueue stM))) _).1)
    ((ifStart_fields (saveLivefeedMap (rebuildCategories (cleanQueue stM))) _).2.1)
    ((ifStart_fields (saveLivefeedMap (rebuildCategories (cleanQueue stM))) _).2.2) hok

theorem holdSystem_queueOk (st : ClientState) (resub : Bool)
    (hmode : st.livefeedMode ≠ RdioScannerLivefeedMode.playback)
    (hprior : st.livefeedMapPriorToHoldSystem = none)
    (hcall : (st.call <|> st.callPrevious).isSome = true) :
    queueOk (holdSystem st resub) = true := by
  unfold holdSystem
  cases hso : st.call <|> st.callPrevious with
  | none => rw [hso] at hcall; simp at hcall
  | some call =>
    simp only [hso, hprior, Option.isSome_none, Bool.false_eq_true, if_false]
    split
    · -- a talkgroup hold was active and is released first
      apply holdFinish_queueOk
      show (holdTalkgroupRelease st false).livefeedMode ≠ RdioScannerLivefeedMode.playback
      rw [(holdTalkgroupRelease_false_fields st).2.2]
      exact hmode
    · apply holdFinish_queueOk
      exact hmode

theorem holdTalkgroup_queueOk (st : ClientState) (resub : Bool)
    (hmode : st.livefeedMode ≠ RdioScannerLivefeedMode.playback)
    (hprior : st.livefeedMapPriorToHoldTalkgroup = none)
    (hcall : (st.call <|> st.callPrevious).isSome = true) :
    queueOk (holdTalkgroup st resub) = true := by
  unfold holdTalkgroup
  cases hso : st.call <|> st.callPrevious with
  | none => rw [hso] at hcall; simp at hcall
  | some call =>
    simp only [hso, hprior, Option.isSome_none, Bool.false_eq_true, if_false]
    split
    · apply holdFinish_queueOk
      show (holdSystemRelease st false).livefeedMode ≠ RdioScannerLivefeedMode.playback
      rw [(holdSystemRelease_false_fields st).2.2]
      exact hmode
    · apply holdFinish_queueOk
      exact hmode

theorem lookup_isSome_lfmUpdate (m : LivefeedMap) (sys tg : Nat)
    (f : RdioScannerLivefeed → RdioScannerLivefeed) (s : Nat) :
    ((lfmUpdate m sys tg f).lookup s).isSome = (m.lookup s).isSome := by
  induction m with
  | nil => rfl
  | cons p rest ih =>
    obtain ⟨k, v⟩ := p
    unfold lfmUpdate at ih ⊢
    rw [List.map_cons]
    dsimp only
    by_cases hk : k = sys
    · rw [if_pos hk]
      cases hks : ((s : Nat) == k)
      · simp only [List.lookup, hks]
        exact ih
      · simp only [List.lookup, hks]
        rfl
    · rw [if_neg hk]
      cases hks : ((s : Nat) == k)
      · simp only [List.lookup, hks]
        exact ih
      · simp only [List.lookup, hks]

theorem foldl_preserves {α β : Type} (step : β → α → β) (P : β → Prop)
    (hstep : ∀ b a, P b → P (step b a)) : ∀ (l : List α) (b : β), P b → P (l.foldl step b) := by
  intro l
  induction l with
  | nil => intro b h; exact h
  | cons x xs ih => intro b h; exact ih _ (hstep b x h)

theorem rebuildCategories_call (s : ClientState) : (rebuildCategories s).call = s.call := rfl

theorem rebuildCategories_map (s : ClientState) :
    (rebuildCategories s).livefeedMap = s.livefeedMap := rfl

theorem toggleSkipBranch (s : ClientState)
    (h : ∀ c, s.call = some c → (s.livefeedMap.lookup c.system).isSome = true) :
    (match s.call with
     | some c =>
       if (s.livefeedMap.lookup c.system).isNone
           && (lfmLookup s.livefeedMap c.system c.talkgroup).isSome then
         skip { s with livefeedMap := lfmUpdate s.livefeedMap c.system c.talkgroup toggleClearTimer } false
       else s
     | none => s) = s := by
  cases hcl : s.call with
  | none => simp only [hcl]
  | some c =>
    simp only [hcl]
    have hsome := h c hcl
    have hnone : (s.livefeedMap.lookup c.system).isNone = false := by
      cases hl : s.livefeedMap.lookup c.system with
      | none => rw [hl] at hsome; simp at hsome
      | some x => rfl
    rw [hnone]
    simp

theorem toggleFold_presence (cat : RdioScannerCategory) (status : Bool)
    (systems : List RdioScannerSystem) (m0 : LivefeedMap) (s : Nat) :
    (((systems.foldl (fun m sys =>
      sys.talkgroups.foldl (fun m tg =>
        if (cat.type = RdioScannerCategoryType.group ∧ tg.group = cat.label) ∨
           (cat.type = RdioScannerCategoryType.tag ∧ tg.tag = cat.label) then
          lfmUpdate m sys.id tg.id (fun e => { toggleClearTimer e with active := status })
        else m) m) m0).lookup s)).isSome = ((m0.lookup s)).isSome := by
  have hstep : ∀ (b : LivefeedMap) (sys : RdioScannerSystem),
      ((b.lookup s)).isSome = ((m0.lookup s)).isSome →
      (((sys.talkgroups.foldl (fun m tg =>
        if (cat.type = RdioScannerCategoryType.group ∧ tg.group = cat.label) ∨
           (cat.type = RdioScannerCategoryType.tag ∧ tg.tag = cat.label) then
          lfmUpdate m sys.id tg.id (fun e => { toggleClearTimer e with active := status })
        else m) b).lookup s)).isSome = ((m0.lookup s)).isSome := by
    intro b sys hb
    refine foldl_preserves _ (fun mm => ((mm.lookup s)).isSome = ((m0.lookup s)).isSome)
      ?_ sys.talkgroups b hb
    intro b2 tg hb2
    split
    · rw [lookup_isSome_lfmUpdate]
      exact hb2
    · exact hb2
  exact foldl_preserves
    (fun m sys =>
      sys.talkgroups.foldl (fun m tg =>
        if (cat.type = RdioScannerCategoryType.group ∧ tg.group = cat.label) ∨
           (cat.type = RdioScannerCategoryType.tag ∧ tg.tag = cat.label) then
          lfmUpdate m sys.id tg.id (fun e => { toggleClearTimer e with active := status })
        else m) m)
    (fun mm => ((mm.lookup s)).isSome = ((m0.lookup s)).isSome)
    hstep systems m0 rfl

theorem toggleFinish_queueOk (B : ClientState)
    (hmode : B.livefeedMode ≠ RdioScannerLivefeedMode.playback) :
    queueOk { cleanQueue (saveLivefeedMap
        (if B.livefeedMode = RdioScannerLivefeedMode.online then startLivefeed B else B)) with
      events := (cleanQueue (saveLivefeedMap
        (if B.livefeedMode = RdioScannerLivefeedMode.online then startLivefeed B else B))).events + 1 } = true := by
  have hmodeC : (saveLivefeedMap
      (if B.livefeedMode = RdioScannerLivefeedMode.online then startLivefeed B else B)).livefeedMode
      ≠ RdioScannerLivefeedMode.playback := by
    show (if B.livefeedMode = RdioScannerLivefeedMode.online then startLivefeed B else B).livefeedMode
      ≠ RdioScannerLivefeedMode.playback
    split
    · rw [startLivefeed_mode]
      intro hx
      cases hx
    · exact hmode
  obtain ⟨hok, -, -⟩ := cleanQueue_ok _ hmodeC
  exact queueOk_of_fields _ _ rfl rfl rfl hok

theorem toggleTail_queueOk (s : ClientState)
    (hmode : s.livefeedMode ≠ RdioScannerLivefeedMode.playback)
    (h : ∀ c, s.call = some c → ((s.livefeedMap.lookup c.system)).isSome = true) :
    queueOk (
      let s1 := rebuildCategories s
      let s2 := match s1.call with
        | some c =>
          if ((s1.livefeedMap.lookup c.system)).isNone
              && (lfmLookup s1.livefeedMap c.system c.talkgroup).isSome then
            skip { s1 with livefeedMap := lfmUpdate s1.livefeedMap c.system c.talkgroup toggleClearTimer } false
          else s1
        | none => s1
      let s3 := if s2.livefeedMode = RdioScannerLivefeedMode.online then startLivefeed s2 else s2
      let s4 := saveLivefeedMap s3
      let s5 := cleanQueue s4
      { s5 with events := s5.events + 1 }) = true := by
  simp only []
  cases hcl : (rebuildCategories s).call with
  | none =>
    simp only [hcl]
    exact toggleFinish_queueOk (rebuildCategories s) hmode
  | some c =>
    simp only [hcl]
    have hsome : (((rebuildCategories s).livefeedMap.lookup c.system)).isSome = true := h c hcl
    have hnone : (((rebuildCategories s).livefeedMap.lookup c.system)).isNone = false := by
      cases hl : (rebuildCategories s).livefeedMap.lookup c.system with
      | none => rw [hl] at hsome; simp at hsome
      | some x => rfl
    rw [hnone]
    simp only [Bool.false_and, Bool.false_eq_true, if_false]
    exact toggleFinish_queueOk (rebuildCategories s) hmode

theorem toggleCategory_queueOk (st : ClientState) (cat : RdioScannerCategory)
    (hmode : st.livefeedMode ≠ RdioScannerLivefeedMode.playback)
    (hcs : ∀ c, st.call = some c → ((st.livefeedMap.lookup c.system)).isSome = true) :
    queueOk (toggleCategory st cat) = true := by
  unfold toggleCategory
  refine toggleTail_queueOk _ ?_ ?_
  · exact hmode
  · intro c hc
    exact (toggleFold_presence cat (cat.status != RdioScannerCategoryStatus.on)
      st.config.systems st.livefeedMap c.system).trans (hcs c hc)

/-- C10: after each queue-pruning client operation run outside playback
mode — `avoid`, `holdSystem` (entering a hold with a current or previous
call), `holdTalkgroup` (likewise), and `toggleCategory` (with the current
call's system keyed in the livefeed map) — every call left in `callQueue`
satisfies the subscription predicate (its own talkgroup entry is active,
or some patched talkgroup's entry is), and the current call, when it
fails the predicate, has been skipped: `queueOk` holds of the result. -/
theorem c10_prune_invariant (st : ClientState) (o : RdioScannerAvoidOptions)
    (cat : RdioScannerCategory) (resub : Bool)
    (hmode : st.livefeedMode ≠ RdioScannerLivefeedMode.playback)
    (hpriorS : st.livefeedMapPriorToHoldSystem = none)
    (hpriorT : st.livefeedMapPriorToHoldTalkgroup = none)
    (hcall : (st.call <|> st.callPrevious).isSome = true)
    (hcs : ∀ c, st.call = some c → ((st.livefeedMap.lookup c.system)).isSome = true) :
    queueOk (avoid st o) = true ∧
    queueOk (holdSystem st resub) = true ∧
    queueOk (holdTalkgroup st resub) = true ∧
    queueOk (toggleCategory st cat) = true :=
  ⟨avoid_queueOk st o hmode,
   holdSystem_queueOk st resub hmode hpriorS hcall,
   holdTalkgroup_queueOk st resub hmode hpriorT hcall,
   toggleCategory_queueOk st cat hmode hcs⟩

/-- C10 (witness): the invariant evaluated on a connected online client
holding one avoided talkgroup, for each of the four operations at
concrete arguments. -/
theorem c10_prune_invariant_witness :
    queueOk (avoid c10State { all := none
                              call := none
                              system := none
                              talkgroup := none
                              minutes := none
                              status := none }) = true ∧
    queueOk (holdSystem c10State true) = true ∧
    queueOk (holdTalkgroup c10State true) = true ∧
    queueOk (toggleCategory c10State { label := "g"
                                       status := RdioScannerCategoryStatus.on
                                       type := RdioScannerCategoryType.group }) = true :=
  c10_prune_invariant c10State
    { all := none
      call := none
      system := none
      talkgroup := none
      minutes := none
      status := none }
    { label := "g"
      status := RdioScannerCategoryStatus.on
      type := RdioScannerCategoryType.group }
    true (by decide) rfl rfl (by decide)
    (fun c hc => by
      have h2 : c2Call = c := Option.some.inj hc
      subst h2
      decide)

theorem bindMigration_none (st : DbState) (step : DbState → DbState × Option String) :
    bindMigration (st, none) step = step st := rfl

theorem bindMigration_success {r : DbState × Option String}
    {step : DbState → DbState × Option String} {st' : DbState}
    (h : bindMigration r step = (st', none)) :
    ∃ stm, r = (stm, none) ∧ step stm = (st', none) := by
  obtain ⟨sta, err⟩ := r
  cases err with
  | none => exact ⟨sta, rfl, h⟩
  | some e =>
    have h2 : ((sta, some e) : DbState × Option String) = (st', none) := h
    exact absurd (congrArg Prod.snd h2) (by simp)

theorem mw_skip (dbType : String) (fails : SqlStmt → Bool) (bf cf : Bool)
    (name : String) (schemas : List String) (v : Bool) (st : DbState)
    (h : metaHas st name) :
    migrateWithSchema dbType fails bf cf name schemas v st = (st, none) := by
  obtain ⟨ns, hm, hn⟩ := h
  unfold migrateWithSchema
  simp only [hm]
  rw [if_pos hn]

theorem mw_success_has (dbType : String) (fails : SqlStmt → Bool) (cf : Bool)
    (name : String) (schemas : List String) (v : Bool) (st st' : DbState)
    (h : migrateWithSchema dbType fails false cf name schemas v st = (st', none)) :
    metaHas st' name ∧ (∀ n, metaHas st n → metaHas st' n) := by
  unfold migrateWithSchema at h
  cases hm : st.meta with
  | none =>
    simp only [hm] at h
    exact absurd (congrArg Prod.snd h) (by simp)
  | some names =>
    simp only [hm] at h
    by_cases hn : name ∈ names
    · rw [if_pos hn] at h
      injection h with h1 h2
      subst h1
      exact ⟨⟨names, hm, hn⟩, fun n hx => hx⟩
    · rw [if_neg hn] at h
      simp only [Bool.false_eq_true, if_false] at h
      cases hff : firstFailing fails schemas with
      | some q =>
        rw [hff] at h
        exact absurd (congrArg Prod.snd h) (by simp)
      | none =>
        rw [hff] at h
        cases hfi : fails (metaInsertQuery dbType name, []) with
        | true =>
          rw [hfi] at h
          simp only [if_true] at h
          exact absurd (congrArg Prod.snd h) (by simp)
        | false =>
          rw [hfi] at h
          simp only [Bool.false_eq_true, if_false] at h
          cases cf with
          | true =>
            simp only [if_true] at h
            exact absurd (congrArg Prod.snd h) (by simp)
          | false =>
            simp only [Bool.false_eq_true, if_false] at h
            injection h with hfst hsnd
            have h1 : st'.meta = some (names ++ [name]) := by rw [← hfst]
            refine ⟨⟨names ++ [name], h1, List.mem_append_right names (List.mem_singleton.mpr rfl)⟩, ?_⟩
            intro n hx
            obtain ⟨ns, hns, hnn⟩ := hx
            rw [hm] at hns
            injection hns with hns
            subst hns
            exact ⟨names ++ [name], h1, List.mem_append_left _ hnn⟩

theorem m22_success_has (dbType : String) (fails : SqlStmt → Bool) (cf : Bool)
    (legacy : LegacyRead) (v : Bool) (st st' : DbState)
    (h : migration20220101070000 dbType fails false cf legacy v st = (st', none)) :
    metaHas st' "20220101070000-v6.1.0" ∧ (∀ n, metaHas st n → metaHas st' n) := by
  cases legacy with
  | rowError e =>
    have h2 : ((st, some e) : DbState × Option String) = (st', none) := h
    exact absurd (congrArg Prod.snd h2) (by simp)
  | queryFailed =>
    exact mw_success_has dbType fails cf "20220101070000-v6.1.0"
      (queries20220101070000 dbType) v st st' h
  | rows dyn =>
    exact mw_success_has dbType fails cf "20220101070000-v6.1.0"
      (queries20220101070000 dbType ++ dyn) v st st' h

theorem firstFailing_noFail (s : List String) : firstFailing noFail s = none := by
  induction s with
  | nil => rfl
  | cons q qs ih => simp [firstFailing, noFail, ih]

theorem firstFailingStmt_noFail (s : List SqlStmt) : firstFailingStmt noFail s = none := by
  induction s with
  | nil => rfl
  | cons q qs ih => simp [firstFailingStmt, noFail, ih]

theorem mw_noFail (dbType name : String) (schemas : List String) (v : Bool)
    (st : DbState) (names : List String) (hm : st.meta = some names) :
    ∃ st' names', migrateWithSchema dbType noFail false false name schemas v st = (st', none)
      ∧ st'.meta = some names' := by
  unfold migrateWithSchema
  simp only [hm]
  by_cases hn : name ∈ names
  · rw [if_pos hn]
    exact ⟨st, names, rfl, hm⟩
  · rw [if_neg hn]
    simp only [Bool.false_eq_true, if_false, firstFailing_noFail, noFail]
    exact ⟨_, names ++ [name], rfl, rfl⟩

theorem prepareMigration_meta (st : DbState) :
    ∃ ms, (prepareMigration st).1.meta = some ms := by
  unfold prepareMigration
  cases hm : st.meta with
  | some ns =>
    simp only [hm]
    exact ⟨ns, rfl⟩
  | none =>
    simp only [hm]
    cases hs : st.sequelizeMeta with
    | some ns => simp only [hs]; exact ⟨ns, rfl⟩
    | none => simp only [hs]; exact ⟨[], rfl⟩

theorem migrate_noFail (dbType : String) (dyn : List String) (st : DbState) :
    ∃ st' names', migrate dbType noFail false false (.rows dyn) st = (st', none)
      ∧ st'.meta = some names' := by
  unfold migrate
  simp only []
  obtain ⟨ms, hms⟩ := prepareMigration_meta st
  obtain ⟨s1, ns1, e1, h1⟩ := mw_noFail dbType "20191028144433-create-rdio-scanner-system"
    (queries20191028144433 dbType) (prepareMigration st).2 (prepareMigration st).1 ms hms
  rw [show migration20191028144433 dbType noFail false false (prepareMigration st).2
    (prepareMigration st).1 = (s1, none) from e1, bindMigration_none]
  obtain ⟨s2, ns2, e2, h2⟩ := mw_noFail dbType "20191029092201-create-rdio-scanner-call"
    (queries20191029092201 dbType) (prepareMigration st).2 s1 ns1 h1
  rw [show migration20191029092201 dbType noFail false false (prepareMigration st).2 s1
    = (s2, none) from e2, bindMigration_none]
  obtain ⟨s3, ns3, e3, h3⟩ := mw_noFail dbType "20191126135515-optimize-rdio-scanner-calls"
    (queries20191126135515 dbType) (prepareMigration st).2 s2 ns2 h2
  rw [show migration20191126135515 dbType noFail false false (prepareMigration st).2 s2
    = (s3, none) from e3, bindMigration_none]
  obtain ⟨s4, ns4, e4, h4⟩ := mw_noFail dbType "20191220093214-new-v3-tables"
    (queries20191220093214 dbType) (prepareMigration st).2 s3 ns3 h3
  rw [show migration20191220093214 dbType noFail false false (prepareMigration st).2 s3
    = (s4, none) from e4, bindMigration_none]
  obtain ⟨s5, ns5, e5, h5⟩ := mw_noFail dbType "20200123094105-optimize-rdio-scanner-calls"
    (queries20200123094105 dbType) (prepareMigration st).2 s4 ns4 h4
  rw [show migration20200123094105 dbType noFail false false (prepareMigration st).2 s4
    = (s5, none) from e5, bindMigration_none]
  obtain ⟨s6, ns6, e6, h6⟩ := mw_noFail dbType "20200428132918-new-v4-tables"
    (queries20200428132918 dbType) (prepareMigration st).2 s5 ns5 h5
  rw [show migration20200428132918 dbType noFail false false (prepareMigration st).2 s5
    = (s6, none) from e6, bindMigration_none]
  obtain ⟨s7, ns7, e7, h7⟩ := mw_noFail dbType "20210115105958-new-v5.1-tables"
    (queries20210115105958 dbType) (prepareMigration st).2 s6 ns6 h6
  rw [show migration20210115105958 dbType noFail false false (prepareMigration st).2 s6
    = (s7, none) from e7, bindMigration_none]
  obtain ⟨s8, ns8, e8, h8⟩ := mw_noFail dbType "20210830092027-v6.0-rename-index"
    (queries20210830092027 dbType) (prepareMigration st).2 s7 ns7 h7
  rw [show migration20210830092027 dbType noFail false false (prepareMigration st).2 s7
    = (s8, none) from e8, bindMigration_none]
  obtain ⟨s9, ns9, e9, h9⟩ := mw_noFail dbType "20211202094819-v6.0.2-alter-table"
    (queries20211202094819 dbType) (prepareMigration st).2 s8 ns8 h8
  rw [show migration20211202094819 dbType noFail false false (prepareMigration st).2 s8
    = (s9, none) from e9, bindMigration_none]
  obtain ⟨s10, ns10, e10, h10⟩ := mw_noFail dbType "20220101070000-v6.1.0"
    (queries20220101070000 dbType ++ dyn) (prepareMigration st).2 s9 ns9 h9
  rw [show migration20220101070000 dbType noFail false false (.rows dyn)
    (prepareMigration st).2 s9 = (s10, none) from e10, bindMigration_none]
  obtain ⟨s11, ns11, e11, h11⟩ := mw_noFail dbType "migration20250321180900-add-audio-url"
    (queries20250321180900 dbType) (prepareMigration st).2 s10 ns10 h10
  rw [show migration20250321180900 dbType noFail false false (prepareMigration st).2 s10
    = (s11, none) from e11, bindMigration_none]
  obtain ⟨s12, ns12, e12, h12⟩ := mw_noFail dbType "migration20250322153000-audio-column-nullable"
    (queries20250322153000 dbType) (prepareMigration st).2 s11 ns11 h11
  rw [show migration20250322153000 dbType noFail false false (prepareMigration st).2 s11
    = (s12, none) from e12]
  exact ⟨s12, ns12, rfl, h12⟩

theorem seedGroups_noFail (dbType : String) (gs : List String) (st : DbState) :
    ∃ st', seedGroups dbType noFail false false gs st = (st', none) := by
  unfold seedGroups
  by_cases hg : st.groups ≠ []
  · rw [if_pos hg]
    exact ⟨st, rfl⟩
  · rw [if_neg hg]
    simp only [Bool.false_eq_true, if_false, firstFailingStmt_noFail]
    exact ⟨_, rfl⟩

theorem seedTags_noFail (dbType : String) (ts : List String) (st : DbState) :
    ∃ st', seedTags dbType noFail false false ts st = (st', none) := by
  unfold seedTags
  by_cases hg : st.tags ≠ []
  · rw [if_pos hg]
    exact ⟨st, rfl⟩
  · rw [if_neg hg]
    simp only [Bool.false_eq_true, if_false, firstFailingStmt_noFail]
    exact ⟨_, rfl⟩

theorem seed_noFail (dbType : String) (gs ts : List String) (st : DbState) :
    ∃ st', seed dbType noFail false false gs ts st = (st', none) := by
  unfold seed
  obtain ⟨s1, h1⟩ := seedGroups_noFail dbType gs st
  rw [h1]
  exact seedTags_noFail dbType ts s1

/-- C3: a migration step is applied at most once — `migrateWithSchema`
skips (no statements, no state change) exactly when its name is already
recorded in `rdioScannerMeta`, records the name inside the same
transaction as the schema statements on a fresh run, and a second run of
the full `migrate` sequence over an already-migrated store changes
nothing and reports no error, for any failure oracle. -/
theorem c3_migrate_once (dbType name : String) (fails : SqlStmt → Bool)
    (bf cf : Bool) (schemas : List String) (v : Bool) (st : DbState)
    (names : List String) (legacy : LegacyRead)
    (hmeta : st.meta = some names) :
    (name ∈ names → migrateWithSchema dbType fails bf cf name schemas v st = (st, none)) ∧
    (name ∉ names → firstFailing fails schemas = none →
      fails (metaInsertQuery dbType name, []) = false →
      migrateWithSchema dbType fails false false name schemas v st =
        ({ st with meta := some (names ++ [name])
                   schemaLog := st.schemaLog ++ schemas.map (fun q => (q, []))
                     ++ [(metaInsertQuery dbType name, [])] }, none)) ∧
    (∀ st1, migrate dbType fails false cf legacy st = (st1, none) →
      ∀ (fails2 : SqlStmt → Bool) (bf2 cf2 : Bool) (dyn2 : List String),
        migrate dbType fails2 bf2 cf2 (.rows dyn2) st1 = (st1, none)) := by
  refine ⟨?_, ?_, ?_⟩
  · intro hn
    exact mw_skip dbType fails bf cf name schemas v st ⟨names, hmeta, hn⟩
  · intro hn hff hfi
    unfold migrateWithSchema
    simp only [hmeta]
    rw [if_neg hn]
    simp only [Bool.false_eq_true, if_false, hff, hfi]
  · intro st1 hrun fails2 bf2 cf2 dyn2
    unfold migrate at hrun
    simp only [] at hrun
    obtain ⟨t11, r11, f12⟩ := bindMigration_success hrun
    obtain ⟨t10, r10, f11⟩ := bindMigration_success r11
    obtain ⟨t9, r9, f10⟩ := bindMigration_success r10
    obtain ⟨t8, r8, f9⟩ := bindMigration_success r9
    obtain ⟨t7, r7, f8⟩ := bindMigration_success r8
    obtain ⟨t6, r6, f7⟩ := bindMigration_success r7
    obtain ⟨t5, r5, f6⟩ := bindMigration_success r6
    obtain ⟨t4, r4, f5⟩ := bindMigration_success r5
    obtain ⟨t3, r3, f4⟩ := bindMigration_success r4
    obtain ⟨t2, r2, f3⟩ := bindMigration_success r3
    obtain ⟨t1, r1, f2⟩ := bindMigration_success r2
    have f1 := r1
    obtain ⟨a1, m1⟩ := mw_success_has dbType fails cf "20191028144433-create-rdio-scanner-system" (queries20191028144433 dbType) (prepareMigration st).2 (prepareMigration st).1 t1 f1
    obtain ⟨a2, m2⟩ := mw_success_has dbType fails cf "20191029092201-create-rdio-scanner-call" (queries20191029092201 dbType) (prepareMigration st).2 t1 t2 f2
    obtain ⟨a3, m3⟩ := mw_success_has dbType fails cf "20191126135515-optimize-rdio-scanner-calls" (queries20191126135515 dbType) (prepareMigration st).2 t2 t3 f3
    obtain ⟨a4, m4⟩ := mw_success_has dbType fails cf "20191220093214-new-v3-tables" (queries20191220093214 dbType) (prepareMigration st).2 t3 t4 f4
    obtain ⟨a5, m5⟩ := mw_success_has dbType fails cf "20200123094105-optimize-rdio-scanner-calls" (queries20200123094105 dbType) (prepareMigration st).2 t4 t5 f5
    obtain ⟨a6, m6⟩ := mw_success_has dbType fails cf "20200428132918-new-v4-tables" (queries20200428132918 dbType) (prepareMigration st).2 t5 t6 f6
    obtain ⟨a7, m7⟩ := mw_success_has dbType fails cf "20210115105958-new-v5.1-tables" (queries20210115105958 dbType) (prepareMigration st).2 t6 t7 f7
    obtain ⟨a8, m8⟩ := mw_success_has dbType fails cf "20210830092027-v6.0-rename-index" (queries20210830092027 dbType) (prepareMigration st).2 t7 t8 f8
    obtain ⟨a9, m9⟩ := mw_success_has dbType fails cf "20211202094819-v6.0.2-alter-table" (queries20211202094819 dbType) (prepareMigration st).2 t8 t9 f9
    obtain ⟨a10, m10⟩ := m22_success_has dbType fails cf legacy (prepareMigration st).2 t9 t10 f10
    obtain ⟨a11, m11⟩ := mw_success_has dbType fails cf "migration20250321180900-add-audio-url" (queries20250321180900 dbType) (prepareMigration st).2 t10 t11 f11
    obtain ⟨a12, m12⟩ := mw_success_has dbType fails cf "migration20250322153000-audio-column-nullable" (queries20250322153000 dbType) (prepareMigration st).2 t11 st1 f12
    have H1 : metaHas st1 "20191028144433-create-rdio-scanner-system" := m12 _ (m11 _ (m10 _ (m9 _ (m8 _ (m7 _ (m6 _ (m5 _ (m4 _ (m3 _ (m2 _ (a1)))))))))))
    have H2 : metaHas st1 "20191029092201-create-rdio-scanner-call" := m12 _ (m11 _ (m10 _ (m9 _ (m8 _ (m7 _ (m6 _ (m5 _ (m4 _ (m3 _ (a2))))))))))
    have H3 : metaHas st1 "20191126135515-optimize-rdio-scanner-calls" := m12 _ (m11 _ (m10 _ (m9 _ (m8 _ (m7 _ (m6 _ (m5 _ (m4 _ (a3)))))))))
    have H4 : metaHas st1 "20191220093214-new-v3-tables" := m12 _ (m11 _ (m10 _ (m9 _ (m8 _ (m7 _ (m6 _ (m5 _ (a4))))))))
    have H5 : metaHas st1 "20200123094105-optimize-rdio-scanner-calls" := m12 _ (m11 _ (m10 _ (m9 _ (m8 _ (m7 _ (m6 _ (a5)))))))
    have H6 : metaHas st1 "20200428132918-new-v4-tables" := m12 _ (m11 _ (m10 _ (m9 _ (m8 _ (m7 _ (a6))))))
    have H7 : metaHas st1 "20210115105958-new-v5.1-tables" := m12 _ (m11 _ (m10 _ (m9 _ (m8 _ (a7)))))
    have H8 : metaHas st1 "20210830092027-v6.0-rename-index" := m12 _ (m11 _ (m10 _ (m9 _ (a8))))
    have H9 : metaHas st1 "20211202094819-v6.0.2-alter-table" := m12 _ (m11 _ (m10 _ (a9)))
    have H10 : metaHas st1 "20220101070000-v6.1.0" := m12 _ (m11 _ (a10))
    have H11 : metaHas st1 "migration20250321180900-add-audio-url" := m12 _ (a11)
    have H12 : metaHas st1 "migration20250322153000-audio-column-nullable" := a12
    have hcopy := H1
    obtain ⟨nsf, hnsf, -⟩ := hcopy
    have hprep : prepareMigration st1 = (st1, true) := by
      unfold prepareMigration
      simp only [hnsf]
    unfold migrate
    simp only [hprep]
    have e1 : migration20191028144433 dbType fails2 bf2 cf2 true st1 = (st1, none) :=
      mw_skip dbType fails2 bf2 cf2 "20191028144433-create-rdio-scanner-system" (queries20191028144433 dbType) true st1 H1
    have e2 : migration20191029092201 dbType fails2 bf2 cf2 true st1 = (st1, none) :=
      mw_skip dbType fails2 bf2 cf2 "20191029092201-create-rdio-scanner-call" (queries20191029092201 dbType) true st1 H2
    have e3 : migration20191126135515 dbType fails2 bf2 cf2 true st1 = (st1, none) :=
      mw_skip dbType fails2 bf2 cf2 "20191126135515-optimize-rdio-scanner-calls" (queries20191126135515 dbType) true st1 H3
    have e4 : migration20191220093214 dbType fails2 bf2 cf2 true st1 = (st1, none) :=
      mw_skip dbType fails2 bf2 cf2 "20191220093214-new-v3-tables" (queries20191220093214 dbType) true st1 H4
    have e5 : migration20200123094105 dbType fails2 bf2 cf2 true st1 = (st1, none) :=
      mw_skip dbType fails2 bf2 cf2 "20200123094105-optimize-rdio-scanner-calls" (queries20200123094105 dbType) true st1 H5
    have e6 : migration20200428132918 dbType fails2 bf2 cf2 true st1 = (st1, none) :=
      mw_skip dbType fails2 bf2 cf2 "20200428132918-new-v4-tables" (queries20200428132918 dbType) true st1 H6
    have e7 : migration20210115105958 dbType fails2 bf2 cf2 true st1 = (st1, none) :=
      mw_skip dbType fails2 bf2 cf2 "20210115105958-new-v5.1-tables" (queries20210115105958 dbType) true st1 H7
    have e8 : migration20210830092027 dbType fails2 bf2 cf2 true st1 = (st1, none) :=
      mw_skip dbType fails2 bf2 cf2 "20210830092027-v6.0-rename-index" (queries20210830092027 dbType) true st1 H8
    have e9 : migration20211202094819 dbType fails2 bf2 cf2 true st1 = (st1, none) :=
      mw_skip dbType fails2 bf2 cf2 "20211202094819-v6.0.2-alter-table" (queries20211202094819 dbType) true st1 H9
    have e10 : migration20220101070000 dbType fails2 bf2 cf2 (.rows dyn2) true st1 = (st1, none) :=
      mw_skip dbType fails2 bf2 cf2 "20220101070000-v6.1.0" (queries20220101070000 dbType ++ dyn2) true st1 H10
    have e11 : migration20250321180900 dbType fails2 bf2 cf2 true st1 = (st1, none) :=
      mw_skip dbType fails2 bf2 cf2 "migration20250321180900-add-audio-url" (queries20250321180900 dbType) true st1 H11
    have e12 : migration20250322153000 dbType fails2 bf2 cf2 true st1 = (st1, none) :=
      mw_skip dbType fails2 bf2 cf2 "migration20250322153000-audio-column-nullable" (queries20250322153000 dbType) true st1 H12
    rw [e1, bindMigration_none]
    rw [e2, bindMigration_none]
    rw [e3, bindMigration_none]
    rw [e4, bindMigration_none]
    rw [e5, bindMigration_none]
    rw [e6, bindMigration_none]
    rw [e7, bindMigration_none]
    rw [e8, bindMigration_none]
    rw [e9, bindMigration_none]
    rw [e10, bindMigration_none]
    rw [e11, bindMigration_none]
    exact e12

/-- C3 (witness): over the fully migrated store the first migration is
skipped without touching the state, and re-running the whole `migrate`
sequence on the result of a completed run returns the state unchanged
with no error. -/
theorem c3_migrate_once_witness :
    migrateWithSchema DbTypeSqlite noFail false false
      "20191028144433-create-rdio-scanner-system" [] false migratedDb = (migratedDb, none) ∧
    migrate DbTypeSqlite noFail false false (.rows [])
      ((migrate DbTypeSqlite noFail false false (.rows []) metaReadyDb).1)
      = ((migrate DbTypeSqlite noFail false false (.rows []) metaReadyDb).1, none) := by
  have h2 : (migrate DbTypeSqlite noFail false false (.rows []) metaReadyDb).2 = none := by decide
  have hrun : migrate DbTypeSqlite noFail false false (.rows []) metaReadyDb
      = ((migrate DbTypeSqlite noFail false false (.rows []) metaReadyDb).1, none) := by
    rw [← h2, Prod.mk.eta]
  constructor
  · exact (c3_migrate_once DbTypeSqlite "20191028144433-create-rdio-scanner-system" noFail
      false false [] false migratedDb migrationNames (.rows []) rfl).1 (by decide)
  · exact (c3_migrate_once DbTypeSqlite "20191028144433-create-rdio-scanner-system" noFail
      false false [] false metaReadyDb [] (.rows []) rfl).2.2
      ((migrate DbTypeSqlite noFail false false (.rows []) metaReadyDb).1) hrun
      noFail false false []

theorem mw_error_unchanged (dbType : String) (fails : SqlStmt → Bool) (bf cf : Bool)
    (name : String) (schemas : List String) (v : Bool) (st st' : DbState) (e : String)
    (h : migrateWithSchema dbType fails bf cf name schemas v st = (st', some e)) : st' = st := by
  unfold migrateWithSchema at h
  cases hm : st.meta with
  | none =>
    simp only [hm] at h
    injection h with h1 h2
    exact h1.symm
  | some names =>
    simp only [hm] at h
    repeat' split at h
    all_goals injection h with h1 h2
    all_goals first
      | exact h1.symm
      | exact absurd h2 (by simp)

theorem seedGroups_error_unchanged (dbType : String) (fails : SqlStmt → Bool) (bf cf : Bool)
    (gs : List String) (st st' : DbState) (e : String)
    (h : seedGroups dbType fails bf cf gs st = (st', some e)) : st' = st := by
  unfold seedGroups at h
  repeat' split at h
  all_goals injection h with h1 h2
  all_goals first
    | exact h1.symm
    | exact absurd h2 (by simp)

theorem seedTags_error_unchanged (dbType : String) (fails : SqlStmt → Bool) (bf cf : Bool)
    (ts : List String) (st st' : DbState) (e : String)
    (h : seedTags dbType fails bf cf ts st = (st', some e)) : st' = st := by
  unfold seedTags at h
  repeat' split at h
  all_goals injection h with h1 h2
  all_goals first
    | exact h1.symm
    | exact absurd h2 (by simp)

/-- C4: multi-row writes are transactional — whenever a migration step or
the group/tag seeding reports an error the store state is unchanged; and a
failing schema statement, a failing recording insert, or a failing seed
insert makes the enclosing step report exactly that statement's error
while leaving the state untouched (the rollback). -/
theorem c4_transactional_rollback (dbType : String) (fails : SqlStmt → Bool)
    (bf cf : Bool) (name : String) (schemas : List String) (v : Bool)
    (st st' : DbState) (e q : String) (s : SqlStmt)
    (names gs ts : List String) :
    (migrateWithSchema dbType fails bf cf name schemas v st = (st', some e) → st' = st) ∧
    (st.meta = some names → name ∉ names → firstFailing fails schemas = some q →
      migrateWithSchema dbType fails false cf name schemas v st = (st, some (q ++ " failed"))) ∧
    (st.meta = some names → name ∉ names → firstFailing fails schemas = none →
      fails (metaInsertQuery dbType name, []) = true →
      migrateWithSchema dbType fails false cf name schemas v st
        = (st, some (metaInsertQuery dbType name ++ " failed"))) ∧
    (seedGroups dbType fails bf cf gs st = (st', some e) → st' = st) ∧
    (st.groups = [] → firstFailingStmt fails (gs.map (seedGroupInsert dbType)) = some s →
      seedGroups dbType fails false cf gs st = (st, some ("database.seedgroups: " ++ s.1 ++ " failed"))) ∧
    (seedTags dbType fails bf cf ts st = (st', some e) → st' = st) ∧
    (st.tags = [] → firstFailingStmt fails (ts.map (seedTagInsert dbType)) = some s →
      seedTags dbType fails false cf ts st = (st, some ("database.seedtags: " ++ s.1 ++ " failed"))) := by
  refine ⟨?_, ?_, ?_, ?_, ?_, ?_, ?_⟩
  · exact mw_error_unchanged dbType fails bf cf name schemas v st st' e
  · intro hm hn hq
    unfold migrateWithSchema
    simp only [hm]
    rw [if_neg hn]
    simp only [Bool.false_eq_true, if_false, hq]
  · intro hm hn hq hfi
    unfold migrateWithSchema
    simp only [hm]
    rw [if_neg hn]
    simp only [Bool.false_eq_true, if_false, hq]
    rw [if_pos hfi]
  · exact seedGroups_error_unchanged dbType fails bf cf gs st st' e
  · intro hg hs
    unfold seedGroups
    rw [if_neg (fun hne => hne hg)]
    simp only [Bool.false_eq_true, if_false, hs]
  · exact seedTags_error_unchanged dbType fails bf cf ts st st' e
  · intro ht hs
    unfold seedTags
    rw [if_neg (fun hne => hne ht)]
    simp only [Bool.false_eq_true, if_false, hs]

/-- C4 (witness): a failing second schema statement rolls the migration
step back with that statement's error, and a failing parameterized insert
does the same for the group and tag seedings. -/
theorem c4_transactional_rollback_witness :
    migrateWithSchema DbTypeSqlite (failOn "q2") false false "m1" ["q1", "q2"] false
      metaReadyDb = (metaReadyDb, some "q2 failed") ∧
    seedGroups DbTypeSqlite (failOn "insert into `rdioScannerGroups` (`label`) values (?)")
      false false ["Fire"] metaReadyDb
      = (metaReadyDb, some "database.seedgroups: insert into `rdioScannerGroups` (`label`) values (?) failed") ∧
    seedTags DbTypeSqlite (failOn "insert into `rdioScannerTags` (`label`) values (?)")
      false false ["Dispatch"] metaReadyDb
      = (metaReadyDb, some "database.seedtags: insert into `rdioScannerTags` (`label`) values (?) failed") :=
  ⟨(c4_transactional_rollback DbTypeSqlite (failOn "q2") false false "m1" ["q1", "q2"] false
      metaReadyDb metaReadyDb "" "q2" ("q2", []) [] [] []).2.1 rfl (by decide) (by decide),
   (c4_transactional_rollback DbTypeSqlite
      (failOn "insert into `rdioScannerGroups` (`label`) values (?)")
      false false "m1" [] false metaReadyDb metaReadyDb "" ""
      ("insert into `rdioScannerGroups` (`label`) values (?)", ["Fire"])
      [] ["Fire"] []).2.2.2.2.1 rfl (by decide),
   (c4_transactional_rollback DbTypeSqlite
      (failOn "insert into `rdioScannerTags` (`label`) values (?)")
      false false "m1" [] false metaReadyDb metaReadyDb "" ""
      ("insert into `rdioScannerTags` (`label`) values (?)", ["Dispatch"])
      [] [] ["Dispatch"]).2.2.2.2.2.2 rfl (by decide)⟩

/-- C7: every successful `NewDatabase` startup configures the store pool
with a one-minute per-connection lifetime, 25 idle connections and 25
open connections. -/
theorem c7_pool_settings (dbType : String) (openFails : Bool) (fails : SqlStmt → Bool)
    (bf cf : Bool) (legacy : LegacyRead) (gs ts : List String) (st : DbState)
    (fmt : String) (pool : PoolSettings) (st' : DbState)
    (h : NewDatabase dbType openFails fails bf cf legacy gs ts st = .ok fmt pool st') :
    pool = { connMaxLifetimeSeconds := 60, maxIdleConns := 25, maxOpenConns := 25 } := by
  unfold NewDatabase at h
  simp only [] at h
  repeat' split at h
  all_goals first
    | exact StartupResult.noConfusion h
    | (injection h with h1 h2 h3; exact h2.symm)

/-- C7 (witness): the sqlite startup over the fully migrated store
succeeds and its pool is the 60s/25/25 configuration. -/
theorem c7_pool_settings_witness :
    NewDatabase DbTypeSqlite false noFail false false (.rows []) [] [] migratedDb
      = StartupResult.ok "2006-01-02 15:04:05.000 -07:00"
          { connMaxLifetimeSeconds := 60, maxIdleConns := 25, maxOpenConns := 25 } migratedDb ∧
    ({ connMaxLifetimeSeconds := 60, maxIdleConns := 25, maxOpenConns := 25 } : PoolSettings)
      = { connMaxLifetimeSeconds := 60, maxIdleConns := 25, maxOpenConns := 25 } :=
  ⟨by decide,
   c7_pool_settings DbTypeSqlite false noFail false false (.rows []) [] [] migratedDb
     "2006-01-02 15:04:05.000 -07:00"
     { connMaxLifetimeSeconds := 60, maxIdleConns := 25, maxOpenConns := 25 }
     migratedDb (by decide)⟩

theorem newdb_ok (dbType : String) (dyn : List String) (gs ts : List String)
    (st : DbState) (fmt : String)
    (hfmt : (if dbType = DbTypeSqlite then some "2006-01-02 15:04:05.000 -07:00"
             else if dbType = DbTypeMariadb ∨ dbType = DbTypeMysql then some "2006-01-02 15:04:05"
             else if dbType = DbTypePostgresql then some "2006-01-02 15:04:05.000000+00"
             else none) = some fmt) :
    ∃ st', NewDatabase dbType false noFail false false (.rows dyn) gs ts st
      = StartupResult.ok fmt { connMaxLifetimeSeconds := 60, maxIdleConns := 25, maxOpenConns := 25 } st' := by
  unfold NewDatabase
  simp only [hfmt]
  simp only [Bool.false_eq_true, if_false]
  obtain ⟨s1, ns1, hmig, -⟩ := migrate_noFail dbType dyn st
  rw [hmig]
  obtain ⟨s2, hseed⟩ := seed_noFail dbType gs ts s1
  refine ⟨s2, ?_⟩
  show (match seed dbType noFail false false gs ts s1 with
      | (_, some _) => StartupResult.fatal 1
      | (st2, none) => StartupResult.ok fmt
          { connMaxLifetimeSeconds := 60, maxIdleConns := 25, maxOpenConns := 25 } st2)
    = StartupResult.ok fmt
        { connMaxLifetimeSeconds := 60, maxIdleConns := 25, maxOpenConns := 25 } s2
  rw [hseed]

/-- C8: `NewDatabase` accepts exactly the dialects sqlite, mariadb, mysql
and postgresql — any other configured dialect, an `sql.Open` failure, a
migration error or a seeding error terminates startup with exit code 1 —
while each supported dialect over a healthy store starts up and returns
the configured database. -/
theorem c8_dialect_gate (dbType : String) (openFails : Bool)
    (fails : SqlStmt → Bool) (bf cf : Bool) (legacy : LegacyRead)
    (gs ts : List String) (st st1 st2 : DbState) (e : String) :
    (dbType ≠ DbTypeSqlite → dbType ≠ DbTypeMariadb → dbType ≠ DbTypeMysql →
      dbType ≠ DbTypePostgresql →
      NewDatabase dbType openFails fails bf cf legacy gs ts st = .fatal 1) ∧
    (openFails = true →
      NewDatabase dbType openFails fails bf cf legacy gs ts st = .fatal 1) ∧
    (migrate dbType fails bf cf legacy st = (st1, some e) →
      NewDatabase dbType openFails fails bf cf legacy gs ts st = .fatal 1) ∧
    (migrate dbType fails bf cf legacy st = (st1, none) →
      seed dbType fails bf cf gs ts st1 = (st2, some e) →
      NewDatabase dbType openFails fails bf cf legacy gs ts st = .fatal 1) ∧
    ((dbType = DbTypeSqlite ∨ dbType = DbTypeMariadb ∨ dbType = DbTypeMysql ∨
        dbType = DbTypePostgresql) →
      ∀ dyn, ∃ fmt st', NewDatabase dbType false noFail false false (.rows dyn) gs ts st
        = StartupResult.ok fmt
            { connMaxLifetimeSeconds := 60, maxIdleConns := 25, maxOpenConns := 25 } st') := by
  refine ⟨?_, ?_, ?_, ?_, ?_⟩
  · intro h1 h2 h3 h4
    unfold NewDatabase
    simp only []
    have hfmt : (if dbType = DbTypeSqlite then some "2006-01-02 15:04:05.000 -07:00"
        else if dbType = DbTypeMariadb ∨ dbType = DbTypeMysql then some "2006-01-02 15:04:05"
        else if dbType = DbTypePostgresql then some "2006-01-02 15:04:05.000000+00"
        else none) = (none : Option String) := by
      rw [if_neg h1, if_neg (fun hor => hor.elim h2 h3), if_neg h4]
    rw [hfmt]
  · intro ho
    unfold NewDatabase
    simp only []
    cases hfmt : (if dbType = DbTypeSqlite then some "2006-01-02 15:04:05.000 -07:00"
        else if dbType = DbTypeMariadb ∨ dbType = DbTypeMysql then some "2006-01-02 15:04:05"
        else if dbType = DbTypePostgresql then some "2006-01-02 15:04:05.000000+00"
        else none) with
    | none => rfl
    | some f =>
      simp only []
      rw [if_pos ho]
  · intro hmig
    unfold NewDatabase
    simp only []
    cases hfmt : (if dbType = DbTypeSqlite then some "2006-01-02 15:04:05.000 -07:00"
        else if dbType = DbTypeMariadb ∨ dbType = DbTypeMysql then some "2006-01-02 15:04:05"
        else if dbType = DbTypePostgresql then some "2006-01-02 15:04:05.000000+00"
        else none) with
    | none => rfl
    | some f =>
      simp only []
      by_cases ho : openFails = true
      · rw [if_pos ho]
      · rw [if_neg ho, hmig]
  · intro hmig hseed
    unfold NewDatabase
    simp only []
    cases hfmt : (if dbType = DbTypeSqlite then some "2006-01-02 15:04:05.000 -07:00"
        else if dbType = DbTypeMariadb ∨ dbType = DbTypeMysql then some "2006-01-02 15:04:05"
        else if dbType = DbTypePostgresql then some "2006-01-02 15:04:05.000000+00"
        else none) with
    | none => rfl
    | some f =>
      simp only []
      by_cases ho : openFails = true
      · rw [if_pos ho]
      · rw [if_neg ho, hmig]
        show (match seed dbType fails bf cf gs ts st1 with
          | (_, some _) => StartupResult.fatal 1
          | (st3, none) => StartupResult.ok f
              { connMaxLifetimeSeconds := 60, maxIdleConns := 25, maxOpenConns := 25 } st3)
          = StartupResult.fatal 1
        rw [hseed]
  · intro hd dyn
    rcases hd with h | h | h | h <;> subst h
    · exact ⟨"2006-01-02 15:04:05.000 -07:00",
        newdb_ok DbTypeSqlite dyn gs ts st "2006-01-02 15:04:05.000 -07:00" (by decide)⟩
    · exact ⟨"2006-01-02 15:04:05",
        newdb_ok DbTypeMariadb dyn gs ts st "2006-01-02 15:04:05" (by decide)⟩
    · exact ⟨"2006-01-02 15:04:05",
        newdb_ok DbTypeMysql dyn gs ts st "2006-01-02 15:04:05" (by decide)⟩
    · exact ⟨"2006-01-02 15:04:05.000000+00",
        newdb_ok DbTypePostgresql dyn gs ts st "2006-01-02 15:04:05.000000+00" (by decide)⟩

/-- C8 (witness): an unknown dialect, an open failure, a failing
migration statement and a failing seed insert each exit with code 1,
while sqlite over a healthy migrated store starts up. -/
theorem c8_dialect_gate_witness :
    NewDatabase "oracle" false noFail false false (.rows []) [] [] freshDb = .fatal 1 ∧
    NewDatabase DbTypeSqlite true noFail false false (.rows []) [] [] freshDb = .fatal 1 ∧
    NewDatabase DbTypeSqlite false
      (failOn "create unique index `rdio_scanner_systems_system` on `rdioScannerSystems` (`system`)")
      false false (.rows []) [] [] metaReadyDb = .fatal 1 ∧
    NewDatabase DbTypeSqlite false
      (failOn "insert into `rdioScannerGroups` (`label`) values (?)")
      false false (.rows []) ["Fire"] ["Dispatch"] seedableDb = .fatal 1 ∧
    (∃ fmt st', NewDatabase DbTypeSqlite false noFail false false (.rows []) [] [] migratedDb
      = StartupResult.ok fmt
          { connMaxLifetimeSeconds := 60, maxIdleConns := 25, maxOpenConns := 25 } st') :=
  ⟨(c8_dialect_gate "oracle" false noFail false false (.rows []) [] [] freshDb freshDb freshDb
      "").1 (by decide) (by decide) (by decide) (by decide),
   (c8_dialect_gate DbTypeSqlite true noFail false false (.rows []) [] [] freshDb freshDb freshDb
      "").2.1 rfl,
   (c8_dialect_gate DbTypeSqlite false
      (failOn "create unique index `rdio_scanner_systems_system` on `rdioScannerSystems` (`system`)")
      false false (.rows []) [] [] metaReadyDb metaReadyDb metaReadyDb
      "create unique index `rdio_scanner_systems_system` on `rdioScannerSystems` (`system`) failed").2.2.1
      (by decide),
   (c8_dialect_gate DbTypeSqlite false
      (failOn "insert into `rdioScannerGroups` (`label`) values (?)")
      false false (.rows []) ["Fire"] ["Dispatch"] seedableDb seedableDb seedableDb
      "database.seedgroups: insert into `rdioScannerGroups` (`label`) values (?) failed").2.2.2.1
      (by decide) (by decide),
   (c8_dialect_gate DbTypeSqlite false noFail false false (.rows []) [] [] migratedDb migratedDb
      migratedDb "").2.2.2.2 (Or.inl rfl) []⟩

theorem str_append_assoc (a b c : String) : a ++ b ++ c = a ++ (b ++ c) := by
  obtain ⟨as⟩ := a
  obtain ⟨bs⟩ := b
  obtain ⟨cs⟩ := c
  exact congrArg String.mk (List.append_assoc as bs cs)

set_option maxRecDepth 16384 in
/-- C9 (counterexample): migration 20220101070000 builds its talkgroup
insert by interpolating the legacy label, led and name values into the
query text (`fmt.Sprintf`) and the migration records that statement with
an empty bound-argument list — the configuration-derived label `Fire
Dispatch` travels inside the SQL text, not as a driver parameter. -/
theorem c9_bound_parameters_counterexample :
    talkgroupInsertQuery DbTypeSqlite none 5 401 "Fire Dispatch" (some "red") "Fire & EMS" 1 1 2
      = "insert into `rdioScannerTalkgroups` (`frequency`, `groupId`, `id`, `label`, `led`, `name`, `order`, `systemId`, `tagId`) values (null, 5, 401, 'Fire Dispatch', 'red', 'Fire & EMS', 1, 1, 2)" ∧
    (migration20220101070000 DbTypeSqlite noFail false false
      (.rows [talkgroupInsertQuery DbTypeSqlite none 5 401 "Fire Dispatch" (some "red") "Fire & EMS" 1 1 2])
      false metaReadyDb).1.schemaLog.contains
      ("insert into `rdioScannerTalkgroups` (`frequency`, `groupId`, `id`, `label`, `led`, `name`, `order`, `systemId`, `tagId`) values (null, 5, 401, 'Fire Dispatch', 'red', 'Fire & EMS', 1, 1, 2)",
        ([] : List String)) = true := by
  constructor
  · decide
  · decide

/-- C9 (amended): the group/tag seeding inserts are parameterized — the
label is the single bound argument and the query text does not depend on
it — but the dynamic talkgroup inserts of migration 20220101070000
interpolate the externally supplied label (apostrophe-doubled) directly
into the query text. -/
theorem c9_bound_parameters_amended (dbType label name : String)
    (frequency : Option Nat) (groupId tgId tgOrder sysId tagId : Nat)
    (led : Option String) :
    (seedGroupInsert dbType label).2 = [label] ∧
    (seedTagInsert dbType label).2 = [label] ∧
    (seedGroupInsert dbType label).1 = (seedGroupInsert dbType "").1 ∧
    (seedTagInsert dbType label).1 = (seedTagInsert dbType "").1 ∧
    (∃ pre post,
      talkgroupInsertQuery dbType frequency groupId tgId label led name tgOrder sysId tagId
        = pre ++ escapeSqlString label ++ post) := by
  refine ⟨?_, ?_, ?_, ?_, ?_⟩
  · unfold seedGroupInsert
    split <;> rfl
  · unfold seedTagInsert
    split <;> rfl
  · unfold seedGroupInsert
    split <;> rfl
  · unfold seedTagInsert
    split <;> rfl
  · unfold talkgroupInsertQuery
    split
    · refine ⟨"insert into `rdioScannerTalkgroups` (`frequency`, `groupId`, `id`, `label`, `led`, `name`, `order`, `systemId`, `tagId`) values ("
        ++ sqlOptNat frequency ++ ", " ++ toString groupId ++ ", " ++ toString tgId ++ ", '",
        "', " ++ sqlOptLed led ++ ", '" ++ escapeSqlString name ++ "', " ++ toString tgOrder
        ++ ", " ++ toString sysId ++ ", " ++ toString tagId ++ ")", ?_⟩
      simp only [str_append_assoc]
    · refine ⟨"insert into rdioScannerTalkgroups (frequency, groupId, id, label, led, name, \"order\", systemId, tagId) values ("
        ++ sqlOptNat frequency ++ ", " ++ toString groupId ++ ", " ++ toString tgId ++ ", '",
        "', " ++ sqlOptLed led ++ ", '" ++ escapeSqlString name ++ "', " ++ toString tgOrder
        ++ ", " ++ toString sysId ++ ", " ++ toString tagId ++ ")", ?_⟩
      simp only [str_append_assoc]
